import Mathlib

/-!
Verification of the e2factory privileged chroot-operation broker
(`src/global/e2-su-2.2.c`, `src/generic/e2-su-2.2.c`) and its unprivileged
relay front-end (`src/global/e2-su.c`), as a shallow embedding.

Strings are modelled as Lean `String`; the C `NUL` terminator of an argument
vector corresponds to the end of the Lean list.  Syscall results that depend
on the outside world (`access`, `clearenv`, `setuid`, `setgid`, `setgroups`,
`execv`) are supplied by a `World` record; the broker's run is a pure
function of the world and of argv, returning the final outcome together with
the chronological trace of world-visible actions it performed.
-/

namespace E2

/-- Linux `PATH_MAX` from `<limits.h>`, the size of the `char name[PATH_MAX]`
buffers in `e2-su-2.2.c`. -/
def pathMax : Nat := 4096

/-- `snprintf(buf, PATH_MAX, ...)` keeps at most `PATH_MAX - 1` characters of
the formatted string and NUL-terminates; this is the resulting C string. -/
def truncPath (s : String) : String := ⟨s.data.take (pathMax - 1)⟩

/-- POSIX `basename(3)` from `<libgen.h>`: strip trailing slashes, then keep
the component after the last remaining slash; an empty string gives `"."`
and an all-slash string gives `"/"`. -/
def basename (s : String) : String :=
  if s.data = [] then "."
  else
    let trimmed := (s.data.reverse.dropWhile (· = '/')).reverse
    if trimmed = [] then "/"
    else ⟨(trimmed.reverse.takeWhile (· ≠ '/')).reverse⟩

/-- The four compiled-in absolute tool paths (`CHROOT_TOOL`, `TAR_TOOL`,
`CHOWN_TOOL`, `RM_TOOL` build definitions). -/
structure Tools where
  chroot_tool : String
  tar_tool : String
  chown_tool : String
  rm_tool : String
deriving DecidableEq, Repr

/-- Results of the world-dependent syscalls made by one broker invocation:
`readable name` is whether `access(name, R_OK)` succeeds for the calling
(still unprivileged) process, the `*Ok` flags are whether the respective
privilege syscalls succeed, and `execOk` whether `execv` of the (existing,
executable) target tool succeeds.  `initialEnv` is the inherited
environment. -/
structure World where
  readable : String → Bool
  clearenvOk : Bool
  setuidOk : Bool
  setgidOk : Bool
  setgroupsOk : Bool
  execOk : Bool
  initialEnv : List (String × String)

/-- World-visible actions of a broker run, in chronological order.  Each
records whether the action succeeded. -/
inductive Event where
  | markerCheck (name : String) (ok : Bool)
  | clearEnv (ok : Bool)
  | setUid0 (ok : Bool)
  | setGid0 (ok : Bool)
  | setGroupsEmpty (ok : Bool)
  | execAttempt (tool : String) (args : List String) (ok : Bool)
deriving DecidableEq, Repr

/-- An attempted change of privilege state (environment or identity). -/
def Event.isPrivChange : Event → Bool
  | .clearEnv _ => true
  | .setUid0 _ => true
  | .setGid0 _ => true
  | .setGroupsEmpty _ => true
  | _ => false

/-- A marker-file readability check (`access(name, R_OK)`). -/
def Event.isMarkerCheck : Event → Bool
  | .markerCheck _ _ => true
  | _ => false

/-- Whether the action can mutate the filesystem.  Per the design, the only
effectful action of the broker is a successful process-image replacement
(the replacing tool then acts); marker checks are reads, and the privilege
calls change only process state. -/
def Event.mutatesFs : Event → Bool
  | .execAttempt _ _ ok => ok
  | _ => false

/-- The marker-check events of a trace (with the checked names). -/
def markerChecks (tr : List Event) : List Event :=
  tr.filter Event.isMarkerCheck

/-- Final result of a broker run: `exited code msg` for calling `exit` after
printing the diagnostic `msg`, or `replaced tool args env` for a successful
`execv(tool, args)` performed with environment `env`. -/
inductive Outcome where
  | exited (code : Nat) (msg : String)
  | replaced (tool : String) (args : List String) (env : List (String × String))
deriving DecidableEq, Repr

/-- `perr` of `e2-su-2.2.c`: print the message and `exit(99)`. -/
def perr (msg : String) : Outcome := .exited 99 msg

/-- `assert_chroot_environment` of `e2-su-2.2.c`: format
`"%s/emlix-chroot"` into a `PATH_MAX` buffer and test `access(name, R_OK)`.
Returns the check event and whether it passed (failure means
`perr("not a chroot environment")` at the call site). -/
def assert_chroot_environment (w : World) (path : String) : Event × Bool :=
  let name := truncPath (path ++ "/emlix-chroot")
  (.markerCheck name (w.readable name), w.readable name)

/-- `assert_chroot_environment_2_3` of `e2-su-2.2.c`: same with
`"%s/e2factory-chroot"` formatted from the base path. -/
def assert_chroot_environment_2_3 (w : World) (base : String) : Event × Bool :=
  let name := truncPath (base ++ "/e2factory-chroot")
  (.markerCheck name (w.readable name), w.readable name)

/-- `setuid_root` of `e2-su-2.2.c` (textually identical in the global and
the generic file): `clearenv()`, `setuid(0)`, `setgid(0)`,
`setgroups(0, NULL)` in this order; the first failing call prints its
`perror` diagnostic and exits 99.  Result: the events performed, and
`some msg` if the run aborted with diagnostic `msg`. -/
def setuid_root (w : World) : List Event × Option String :=
  if !w.clearenvOk then ([.clearEnv false], some "can't clearenv()")
  else if !w.setuidOk then ([.clearEnv true, .setUid0 false], some "can't setuid(0)")
  else if !w.setgidOk then
    ([.clearEnv true, .setUid0 true, .setGid0 false], some "can't setgid(0)")
  else if !w.setgroupsOk then
    ([.clearEnv true, .setUid0 true, .setGid0 true, .setGroupsEmpty false],
      some "can't setgroups()")
  else ([.clearEnv true, .setUid0 true, .setGid0 true, .setGroupsEmpty true], none)

/-- The common tail of every accepted command in both broker files:
`setuid_root(); execv(tool, arg); perror("can't exec"); exit(99);`.
`pre` is the trace accumulated before the privilege change.  After a
successful `clearenv()` the environment carried into the replacement is
empty. -/
def privExec (w : World) (tool : String) (args : List String) (pre : List Event) :
    Outcome × List Event :=
  match setuid_root w with
  | (evs, some msg) => (.exited 99 msg, pre ++ evs)
  | (evs, none) =>
    if w.execOk then (.replaced tool args [], pre ++ evs ++ [.execAttempt tool args true])
    else (.exited 99 "can't exec", pre ++ evs ++ [.execAttempt tool args false])

/-- `main` of `src/global/e2-su-2.2.c`.  `argv` includes the program name at
position 0, so `argc = argv.length`; `t` holds the compiled-in tool paths. -/
def e2su22_global (t : Tools) (w : World) (argv : List String) : Outcome × List Event :=
  if argv.length < 3 then (perr "too few arguments", [])
  else if argv.length > 128 then (perr "too many arguments", [])
  else
    let cmd := argv.getD 1 ""
    if cmd = "chroot_2_2" then
      -- the inner `if(argc < 3)` of the source is kept although the outer
      -- guard already ensures it cannot fire
      if argv.length < 3 then (perr "too few arguments", [])
      else
        let path := argv.getD 2 ""
        let (ev, ok) := assert_chroot_environment w path
        if ok then
          privExec w t.chroot_tool (basename t.chroot_tool :: path :: argv.drop 3) [ev]
        else (perr "not a chroot environment", [ev])
    else if cmd = "extract_tar_2_2" then
      if argv.length ≠ 5 then (perr "wrong number of arguments", [])
      else
        let path := argv.getD 2 ""
        let (ev, ok) := assert_chroot_environment w path
        if ok then
          let tartype := argv.getD 3 ""
          let file := argv.getD 4 ""
          if tartype = "tar.gz" then
            privExec w t.tar_tool
              [basename t.tar_tool, "-C", path, "--gzip", "-xf", file] [ev]
          else if tartype = "tar.bz2" then
            privExec w t.tar_tool
              [basename t.tar_tool, "-C", path, "--bzip2", "-xf", file] [ev]
          else if tartype = "tar" then
            privExec w t.tar_tool [basename t.tar_tool, "-C", path, "-xf", file] [ev]
          else (perr "wrong tararg argument", [ev])
        else (perr "not a chroot environment", [ev])
    else if cmd = "set_permissions_2_2" then
      if argv.length ≠ 3 then (perr "wrong number of arguments", [])
      else
        let path := argv.getD 2 ""
        let (ev, ok) := assert_chroot_environment w path
        if ok then privExec w t.chown_tool [basename t.chown_tool, "root:root", path] [ev]
        else (perr "not a chroot environment", [ev])
    else if cmd = "remove_chroot_2_2" then
      if argv.length ≠ 3 then (perr "wrong number of arguments", [])
      else
        let path := argv.getD 2 ""
        let (ev, ok) := assert_chroot_environment w path
        if ok then privExec w t.rm_tool [basename t.rm_tool, "-r", "-f", path] [ev]
        else (perr "not a chroot environment", [ev])
    else if cmd = "chroot_2_3" then
      if argv.length < 3 then (perr "too few arguments", [])
      else
        let base := argv.getD 2 ""
        let path := truncPath (base ++ "/chroot")
        let (ev, ok) := assert_chroot_environment_2_3 w base
        if ok then
          privExec w t.chroot_tool (basename t.chroot_tool :: path :: argv.drop 3) [ev]
        else (perr "not a chroot environment", [ev])
    else if cmd = "extract_tar_2_3" then
      if argv.length ≠ 5 then (perr "wrong number of arguments", [])
      else
        let base := argv.getD 2 ""
        let (ev, ok) := assert_chroot_environment_2_3 w base
        if ok then
          let path := truncPath (base ++ "/chroot")
          let tartype := argv.getD 3 ""
          let file := argv.getD 4 ""
          if tartype = "tar.gz" then
            privExec w t.tar_tool
              [basename t.tar_tool, "-C", path, "--gzip", "-xf", file] [ev]
          else if tartype = "tar.bz2" then
            privExec w t.tar_tool
              [basename t.tar_tool, "-C", path, "--bzip2", "-xf", file] [ev]
          else if tartype = "tar" then
            privExec w t.tar_tool [basename t.tar_tool, "-C", path, "-xf", file] [ev]
          else (perr "wrong tararg argument", [ev])
        else (perr "not a chroot environment", [ev])
    else if cmd = "set_permissions_2_3" then
      if argv.length ≠ 3 then (perr "wrong number of arguments", [])
      else
        let base := argv.getD 2 ""
        let (ev, ok) := assert_chroot_environment_2_3 w base
        if ok then
          let path := truncPath (base ++ "/chroot")
          privExec w t.chown_tool [basename t.chown_tool, "root:root", path] [ev]
        else (perr "not a chroot environment", [ev])
    else if cmd = "remove_chroot_2_3" then
      if argv.length ≠ 3 then (perr "wrong number of arguments", [])
      else
        let base := argv.getD 2 ""
        let (ev, ok) := assert_chroot_environment_2_3 w base
        if ok then
          let path := truncPath (base ++ "/chroot")
          privExec w t.rm_tool [basename t.rm_tool, "-r", "-f", path] [ev]
        else (perr "not a chroot environment", [ev])
    else (perr "unknown command", [])

/-- `main` of `src/generic/e2-su-2.2.c`.  Same structure as the global file;
the only difference is the tar invocation, which selects a single combined
`tararg` (`-xf` / `-xzf` / `-xjf`) instead of an optional long decompression
flag followed by `-xf`. -/
def e2su22_generic (t : Tools) (w : World) (argv : List String) : Outcome × List Event :=
  if argv.length < 3 then (perr "too few arguments", [])
  else if argv.length > 128 then (perr "too many arguments", [])
  else
    let cmd := argv.getD 1 ""
    if cmd = "chroot_2_2" then
      if argv.length < 3 then (perr "too few arguments", [])
      else
        let path := argv.getD 2 ""
        let (ev, ok) := assert_chroot_environment w path
        if ok then
          privExec w t.chroot_tool (basename t.chroot_tool :: path :: argv.drop 3) [ev]
        else (perr "not a chroot environment", [ev])
    else if cmd = "extract_tar_2_2" then
      if argv.length ≠ 5 then (perr "wrong number of arguments", [])
      else
        let path := argv.getD 2 ""
        let (ev, ok) := assert_chroot_environment w path
        if ok then
          let tartype := argv.getD 3 ""
          let file := argv.getD 4 ""
          if tartype = "tar.gz" then
            privExec w t.tar_tool [basename t.tar_tool, "-C", path, "-xzf", file] [ev]
          else if tartype = "tar.bz2" then
            privExec w t.tar_tool [basename t.tar_tool, "-C", path, "-xjf", file] [ev]
          else if tartype = "tar" then
            privExec w t.tar_tool [basename t.tar_tool, "-C", path, "-xf", file] [ev]
          else (perr "wrong tararg argument", [ev])
        else (perr "not a chroot environment", [ev])
    else if cmd = "set_permissions_2_2" then
      if argv.length ≠ 3 then (perr "wrong number of arguments", [])
      else
        let path := argv.getD 2 ""
        let (ev, ok) := assert_chroot_environment w path
        if ok then privExec w t.chown_tool [basename t.chown_tool, "root:root", path] [ev]
        else (perr "not a chroot environment", [ev])
    else if cmd = "remove_chroot_2_2" then
      if argv.length ≠ 3 then (perr "wrong number of arguments", [])
      else
        let path := argv.getD 2 ""
        let (ev, ok) := assert_chroot_environment w path
        if ok then privExec w t.rm_tool [basename t.rm_tool, "-r", "-f", path] [ev]
        else (perr "not a chroot environment", [ev])
    else if cmd = "chroot_2_3" then
      if argv.length < 3 then (perr "too few arguments", [])
      else
        let base := argv.getD 2 ""
        let path := truncPath (base ++ "/chroot")
        let (ev, ok) := assert_chroot_environment_2_3 w base
        if ok then
          privExec w t.chroot_tool (basename t.chroot_tool :: path :: argv.drop 3) [ev]
        else (perr "not a chroot environment", [ev])
    else if cmd = "extract_tar_2_3" then
      if argv.length ≠ 5 then (perr "wrong number of arguments", [])
      else
        let base := argv.getD 2 ""
        let (ev, ok) := assert_chroot_environment_2_3 w base
        if ok then
          let path := truncPath (base ++ "/chroot")
          let tartype := argv.getD 3 ""
          let file := argv.getD 4 ""
          if tartype = "tar.gz" then
            privExec w t.tar_tool [basename t.tar_tool, "-C", path, "-xzf", file] [ev]
          else if tartype = "tar.bz2" then
            privExec w t.tar_tool [basename t.tar_tool, "-C", path, "-xjf", file] [ev]
          else if tartype = "tar" then
            privExec w t.tar_tool [basename t.tar_tool, "-C", path, "-xf", file] [ev]
          else (perr "wrong tararg argument", [ev])
        else (perr "not a chroot environment", [ev])
    else if cmd = "set_permissions_2_3" then
      if argv.length ≠ 3 then (perr "wrong number of arguments", [])
      else
        let base := argv.getD 2 ""
        let (ev, ok) := assert_chroot_environment_2_3 w base
        if ok then
          let path := truncPath (base ++ "/chroot")
          privExec w t.chown_tool [basename t.chown_tool, "root:root", path] [ev]
        else (perr "not a chroot environment", [ev])
    else if cmd = "remove_chroot_2_3" then
      if argv.length ≠ 3 then (perr "wrong number of arguments", [])
      else
        let base := argv.getD 2 ""
        let (ev, ok) := assert_chroot_environment_2_3 w base
        if ok then
          let path := truncPath (base ++ "/chroot")
          privExec w t.rm_tool [basename t.rm_tool, "-r", "-f", path] [ev]
        else (perr "not a chroot environment", [ev])
    else (perr "unknown command", [])

/-- Syscall results for one run of the relay `src/global/e2-su.c`, which does
not call `clearenv` and passes the inherited environment `env` through. -/
structure RelayWorld where
  setuidOk : Bool
  setgidOk : Bool
  setgroupsOk : Bool
  execOk : Bool
  env : List (String × String)

/-- `main` of `src/global/e2-su.c` (the relay).  `toolName` and `toolPath`
are the build-time `E2_ROOT_TOOL_NAME` / `E2_ROOT_TOOL_PATH` constants.
A token is skipped exactly when its first character is `'-'`; identity
failures exit 1 and an exec failure exits 3.  The C vector buffer holds 1024
entries (tool name, surviving tokens, `NULL`); the model is faithful for
invocations whose surviving tokens fit that buffer, which the theorems about
it assume. -/
def e2su_relay (toolName toolPath : String) (w : RelayWorld) (argv : List String) :
    Outcome × List Event :=
  if argv.length < 2 then
    (.exited 1 "this tool is not intended to be executed directly", [])
  else
    let args := toolName :: (argv.drop 1).filter (fun s => s.data.head? ≠ some '-')
    if !w.setuidOk then (.exited 1 "can't setuid(0)", [.setUid0 false])
    else if !w.setgidOk then (.exited 1 "can't setgid(0)", [.setUid0 true, .setGid0 false])
    else if !w.setgroupsOk then
      (.exited 1 "can't setgroups()", [.setUid0 true, .setGid0 true, .setGroupsEmpty false])
    else if w.execOk then
      (.replaced toolPath args w.env,
        [.setUid0 true, .setGid0 true, .setGroupsEmpty true, .execAttempt toolPath args true])
    else
      (.exited 3 "can't exec",
        [.setUid0 true, .setGid0 true, .setGroupsEmpty true, .execAttempt toolPath args false])

/-! ### Derived notions used to state the verified properties -/

/-- The diagnostics of the validation stage (argument, command, marker and
archive-kind errors), as opposed to privilege-change and exec failures. -/
def validationMsgs : List String :=
  ["too few arguments", "too many arguments", "wrong number of arguments",
    "unknown command", "not a chroot environment", "wrong tararg argument"]

/-- An attempted process-image replacement. -/
def Event.isExecAttempt : Event → Bool
  | .execAttempt _ _ _ => true
  | _ => false

/-- Privilege-state changes and exec attempts: the actions that occur after
validation. -/
def Event.isPrivOrExec (e : Event) : Bool :=
  e.isPrivChange || e.isExecAttempt

/-- All four privilege syscalls of `setuid_root` succeed in this world. -/
def World.privOk (w : World) : Prop :=
  w.clearenvOk = true ∧ w.setuidOk = true ∧ w.setgidOk = true ∧ w.setgroupsOk = true

/-- A run passed marker validation: some marker check in its trace
succeeded. -/
def passedValidation (tr : List Event) : Bool :=
  tr.any fun e => match e with
    | .markerCheck _ ok => ok
    | _ => false

/-- The eight recognized command names. -/
def recognizedCmds : List String :=
  ["chroot_2_2", "extract_tar_2_2", "set_permissions_2_2", "remove_chroot_2_2",
    "chroot_2_3", "extract_tar_2_3", "set_permissions_2_3", "remove_chroot_2_3"]

/-- The commands of the current (`_2_3`) layout. -/
def cmds23 : List String :=
  ["chroot_2_3", "extract_tar_2_3", "set_permissions_2_3", "remove_chroot_2_3"]

/-- The per-command arity check of the dispatcher: global bound `[3, 128]`
on argc, exactly 5 arguments for the extract commands and exactly 3 for the
ownership and remove commands (the enter commands take any trailing list
within the global bound). -/
def arityOk (argv : List String) : Bool :=
  let cmd := argv.getD 1 ""
  let n := argv.length
  3 ≤ n && n ≤ 128 &&
    (if cmd = "extract_tar_2_2" || cmd = "extract_tar_2_3" then n == 5
     else if cmd = "set_permissions_2_2" || cmd = "remove_chroot_2_2" ||
        cmd = "set_permissions_2_3" || cmd = "remove_chroot_2_3" then n == 3
     else true)

/-- The marker file named by the specification for an invocation: the path or
base argument with the layout-appropriate marker file name appended, **not**
truncated. -/
def claimMarkerName (argv : List String) : String :=
  if argv.getD 1 "" ∈ cmds23 then argv.getD 2 "" ++ "/e2factory-chroot"
  else argv.getD 2 "" ++ "/emlix-chroot"

/-- The single combined tar flag selected by `src/generic/e2-su-2.2.c` for a
recognized archive kind. -/
def tarargOf (kind : String) : String :=
  if kind = "tar.gz" then "-xzf" else if kind = "tar.bz2" then "-xjf" else "-xf"

/-- The optional long decompression flag pushed by `src/global/e2-su-2.2.c`
before `-xf` for a recognized archive kind. -/
def longFlagsOf (kind : String) : List String :=
  if kind = "tar.gz" then ["--gzip"] else if kind = "tar.bz2" then ["--bzip2"] else []

/-- The argument vectors of the two broker implementations agree up to the
tar-flag encoding: either they are equal, or they are the two encodings of
the same gzip or bzip2 extraction. -/
def vecRel (g e : List String) : Prop :=
  g = e ∨
    (∃ prog p f, g = [prog, "-C", p, "--gzip", "-xf", f] ∧ e = [prog, "-C", p, "-xzf", f]) ∨
    (∃ prog p f, g = [prog, "-C", p, "--bzip2", "-xf", f] ∧ e = [prog, "-C", p, "-xjf", f])

/-- A sample tool configuration used for concrete evaluations. -/
def cTools : Tools := ⟨"/usr/sbin/chroot", "/bin/tar", "/bin/chown", "/bin/rm"⟩

/-- A world where every marker is readable and every syscall succeeds. -/
def cWorld : World := ⟨fun _ => true, true, true, true, true, true, [("PATH", "/bin")]⟩

/-- A path of `PATH_MAX - 1` characters, long enough to make the
`snprintf` calls of the broker truncate. -/
def longA : String := ⟨List.replicate 4095 'a'⟩

/-- A world in which exactly the 4095-character path `longA` itself is
readable — in particular, no marker file under it is. -/
def c2World : World := ⟨fun s => s == longA, true, true, true, true, true, []⟩

/-! ### Basic facts about truncation and the long path -/

lemma truncPath_eq_of_le (s : String) (h : s.data.length ≤ pathMax - 1) :
    truncPath s = s := by
  apply String.ext
  exact List.take_of_length_le h

lemma truncPath_append_left (s u : String) (h : s.data.length = pathMax - 1) :
    truncPath (s ++ u) = s := by
  apply String.ext
  show ((s ++ u).data.take (pathMax - 1)) = s.data
  rw [String.data_append, ← h, List.take_left]

lemma longA_data : longA.data = List.replicate 4095 'a' := rfl

lemma longA_len : longA.data.length = pathMax - 1 := by
  rw [longA_data, List.length_replicate]; rfl

lemma longA_trunc_emlix : truncPath (longA ++ "/emlix-chroot") = longA :=
  truncPath_append_left _ _ longA_len

lemma longA_trunc_e2factory : truncPath (longA ++ "/e2factory-chroot") = longA :=
  truncPath_append_left _ _ longA_len

lemma longA_trunc_chroot : truncPath (longA ++ "/chroot") = longA :=
  truncPath_append_left _ _ longA_len

lemma longA_beq_self : (longA == longA) = true := by simp

lemma append_ne_self (s u : String) (hu : u.data.length ≠ 0) : s ++ u ≠ s := by
  intro h
  have h2 : (s ++ u).data.length = s.data.length := by rw [h]
  rw [String.data_append, List.length_append] at h2
  omega

lemma longA_append_emlix_beq : ((longA ++ "/emlix-chroot") == longA) = false := by
  rw [beq_eq_false_iff_ne]
  exact append_ne_self _ _ (by decide)

lemma longA_append_e2factory_beq : ((longA ++ "/e2factory-chroot") == longA) = false := by
  rw [beq_eq_false_iff_ne]
  exact append_ne_self _ _ (by decide)

/-! ### Facts about the privilege-drop-and-exec tail -/

lemma markerCheck_not_privOrExec (e : Event) (h : e.isMarkerCheck = true) :
    e.isPrivOrExec = false := by
  cases e <;> simp_all [Event.isMarkerCheck, Event.isPrivOrExec, Event.isPrivChange,
    Event.isExecAttempt]

lemma markerCheck_not_privChange (e : Event) (h : e.isMarkerCheck = true) :
    e.isPrivChange = false := by
  cases e <;> simp_all [Event.isMarkerCheck, Event.isPrivChange]

lemma markerCheck_not_mutates (e : Event) (h : e.isMarkerCheck = true) :
    e.mutatesFs = false := by
  cases e <;> simp_all [Event.isMarkerCheck, Event.mutatesFs]

lemma privExec_exited_iff (w : World) (t1 t2 : String) (a1 a2 : List String)
    (p1 p2 : List Event) (c : Nat) (m : String) :
    (privExec w t1 a1 p1).1 = .exited c m ↔ (privExec w t2 a2 p2).1 = .exited c m := by
  obtain ⟨rd, ce, su, sg, sgr, ex, env⟩ := w
  unfold privExec setuid_root
  cases ce <;> cases su <;> cases sg <;> cases sgr <;> cases ex <;> simp

lemma privExec_exited_elim (w : World) (tool : String) (args : List String)
    (pre : List Event) (c : Nat) (m : String)
    (h : (privExec w tool args pre).1 = .exited c m) :
    c = 99 ∧ m ∉ validationMsgs := by
  obtain ⟨rd, ce, su, sg, sgr, ex, env⟩ := w
  unfold privExec setuid_root at h
  cases ce <;> cases su <;> cases sg <;> cases sgr <;> cases ex <;> simp at h <;>
    (obtain ⟨hc, hm⟩ := h; subst hm; subst hc; exact ⟨rfl, by decide⟩)

lemma privExec_replaced_elim (w : World) (tool : String) (args : List String)
    (pre : List Event) (tl : String) (ar : List String) (env : List (String × String))
    (h : (privExec w tool args pre).1 = .replaced tl ar env) :
    tl = tool ∧ ar = args ∧ env = [] ∧ w.privOk ∧ w.execOk = true := by
  obtain ⟨rd, ce, su, sg, sgr, ex, en⟩ := w
  unfold privExec setuid_root at h
  cases ce <;> cases su <;> cases sg <;> cases sgr <;> cases ex <;>
    simp_all [World.privOk]

lemma privExec_replaced_intro (w : World) (tool : String) (args : List String)
    (pre : List Event) (hp : w.privOk) (he : w.execOk = true) :
    privExec w tool args pre =
      (.replaced tool args [],
        pre ++ [.clearEnv true, .setUid0 true, .setGid0 true, .setGroupsEmpty true,
          .execAttempt tool args true]) := by
  obtain ⟨h1, h2, h3, h4⟩ := hp
  unfold privExec setuid_root
  simp [h1, h2, h3, h4, he]

lemma privExec_markerChecks (w : World) (tool : String) (args : List String)
    (pre : List Event) :
    markerChecks (privExec w tool args pre).2 = markerChecks pre := by
  obtain ⟨rd, ce, su, sg, sgr, ex, env⟩ := w
  unfold privExec setuid_root markerChecks
  cases ce <;> cases su <;> cases sg <;> cases sgr <;> cases ex <;>
    simp [List.filter_append, Event.isMarkerCheck]

lemma privExec_no_mutation (w : World) (tool : String) (args : List String)
    (pre : List Event) (c : Nat) (m : String)
    (hpre : ∀ e ∈ pre, e.isMarkerCheck = true)
    (h : (privExec w tool args pre).1 = .exited c m) :
    ∀ e ∈ (privExec w tool args pre).2, e.mutatesFs = false := by
  obtain ⟨rd, ce, su, sg, sgr, ex, env⟩ := w
  unfold privExec setuid_root at h ⊢
  cases ce <;> cases su <;> cases sg <;> cases sgr <;> cases ex <;>
    (try simp at h) <;>
    (intro e he
     simp at he
     rcases he with hp | hq
     · exact markerCheck_not_mutates e (hpre e hp)
     · rcases hq with rfl | rfl | rfl | rfl | rfl <;> rfl)

lemma marker_filter_nil (pre : List Event) (hpre : ∀ e ∈ pre, e.isMarkerCheck = true) :
    pre.filter Event.isPrivOrExec = [] := by
  rw [List.filter_eq_nil_iff]
  intro e he
  simp [markerCheck_not_privOrExec e (hpre e he)]

lemma privExec_filter_clearenv (w : World) (tool : String) (args : List String)
    (pre : List Event) (hpre : ∀ e ∈ pre, e.isMarkerCheck = true)
    (h1 : w.clearenvOk = false) :
    ((privExec w tool args pre).2).filter Event.isPrivOrExec = [.clearEnv false] ∧
      (privExec w tool args pre).1 = .exited 99 "can't clearenv()" := by
  unfold privExec setuid_root
  simp [h1, List.filter_append, marker_filter_nil pre hpre, Event.isPrivOrExec,
    Event.isPrivChange, Event.isExecAttempt]

lemma privExec_filter_setuid (w : World) (tool : String) (args : List String)
    (pre : List Event) (hpre : ∀ e ∈ pre, e.isMarkerCheck = true)
    (h1 : w.clearenvOk = true) (h2 : w.setuidOk = false) :
    ((privExec w tool args pre).2).filter Event.isPrivOrExec =
        [.clearEnv true, .setUid0 false] ∧
      (privExec w tool args pre).1 = .exited 99 "can't setuid(0)" := by
  unfold privExec setuid_root
  simp [h1, h2, List.filter_append, marker_filter_nil pre hpre, Event.isPrivOrExec,
    Event.isPrivChange, Event.isExecAttempt]

lemma privExec_filter_setgid (w : World) (tool : String) (args : List String)
    (pre : List Event) (hpre : ∀ e ∈ pre, e.isMarkerCheck = true)
    (h1 : w.clearenvOk = true) (h2 : w.setuidOk = true) (h3 : w.setgidOk = false) :
    ((privExec w tool args pre).2).filter Event.isPrivOrExec =
        [.clearEnv true, .setUid0 true, .setGid0 false] ∧
      (privExec w tool args pre).1 = .exited 99 "can't setgid(0)" := by
  unfold privExec setuid_root
  simp [h1, h2, h3, List.filter_append, marker_filter_nil pre hpre, Event.isPrivOrExec,
    Event.isPrivChange, Event.isExecAttempt]

lemma privExec_filter_setgroups (w : World) (tool : String) (args : List String)
    (pre : List Event) (hpre : ∀ e ∈ pre, e.isMarkerCheck = true)
    (h1 : w.clearenvOk = true) (h2 : w.setuidOk = true) (h3 : w.setgidOk = true)
    (h4 : w.setgroupsOk = false) :
    ((privExec w tool args pre).2).filter Event.isPrivOrExec =
        [.clearEnv true, .setUid0 true, .setGid0 true, .setGroupsEmpty false] ∧
      (privExec w tool args pre).1 = .exited 99 "can't setgroups()" := by
  unfold privExec setuid_root
  simp [h1, h2, h3, h4, List.filter_append, marker_filter_nil pre hpre, Event.isPrivOrExec,
    Event.isPrivChange, Event.isExecAttempt]

lemma privExec_filter_allOk (w : World) (tool : String) (args : List String)
    (pre : List Event) (hpre : ∀ e ∈ pre, e.isMarkerCheck = true)
    (h1 : w.clearenvOk = true) (h2 : w.setuidOk = true) (h3 : w.setgidOk = true)
    (h4 : w.setgroupsOk = true) :
    ((privExec w tool args pre).2).filter Event.isPrivOrExec =
        [.clearEnv true, .setUid0 true, .setGid0 true, .setGroupsEmpty true,
          .execAttempt tool args w.execOk] ∧
      (w.execOk = true → (privExec w tool args pre).1 = .replaced tool args []) ∧
      (w.execOk = false → (privExec w tool args pre).1 = .exited 99 "can't exec") := by
  unfold privExec setuid_root
  cases h5 : w.execOk <;>
    simp [h1, h2, h3, h4, h5, List.filter_append, marker_filter_nil pre hpre,
      Event.isPrivOrExec, Event.isPrivChange, Event.isExecAttempt]

/-- The shape every broker run takes: a validation rejection (exit 99 with a
validation diagnostic and a trace of marker checks only), or the privileged
tail `privExec` run on some tool and vector after one marker check. -/
def RunShape (w : World) (res : Outcome × List Event) : Prop :=
  (∃ m tr, m ∈ validationMsgs ∧ res = (perr m, tr) ∧
      ∀ e ∈ tr, e.isMarkerCheck = true) ∨
  (∃ tool args ev, res = privExec w tool args [ev] ∧ ev.isMarkerCheck = true)

lemma RunShape.rej (w : World) (m : String) (tr : List Event)
    (hm : m ∈ validationMsgs) (htr : ∀ e ∈ tr, e.isMarkerCheck = true) :
    RunShape w (perr m, tr) :=
  Or.inl ⟨m, tr, hm, rfl, htr⟩

lemma RunShape.acc (w : World) (tool : String) (args : List String) (ev : Event)
    (hev : ev.isMarkerCheck = true) :
    RunShape w (privExec w tool args [ev]) :=
  Or.inr ⟨tool, args, ev, rfl, hev⟩

/-- Every run of the global broker has `RunShape`: it is a validation
rejection or a `privExec` tail after one marker check. -/
lemma global_cases (t : Tools) (w : World) (argv : List String) :
    RunShape w (e2su22_global t w argv) := by
  unfold e2su22_global
  simp only [assert_chroot_environment, assert_chroot_environment_2_3]
  by_cases h1 : argv.length < 3
  · rw [if_pos h1]; exact RunShape.rej w _ _ (by decide) (by simp)
  rw [if_neg h1]
  by_cases h2 : argv.length > 128
  · rw [if_pos h2]; exact RunShape.rej w _ _ (by decide) (by simp)
  rw [if_neg h2]
  by_cases c1 : argv.getD 1 "" = "chroot_2_2"
  · rw [if_pos c1, if_neg h1]
    by_cases r : w.readable (truncPath (argv.getD 2 "" ++ "/emlix-chroot")) = true
    · rw [if_pos r]; exact RunShape.acc w _ _ _ rfl
    · rw [if_neg r]; exact RunShape.rej w _ _ (by decide) (by simp [Event.isMarkerCheck])
  rw [if_neg c1]
  by_cases c2 : argv.getD 1 "" = "extract_tar_2_2"
  · rw [if_pos c2]
    by_cases h5 : argv.length ≠ 5
    · rw [if_pos h5]; exact RunShape.rej w _ _ (by decide) (by simp)
    rw [if_neg h5]
    by_cases r : w.readable (truncPath (argv.getD 2 "" ++ "/emlix-chroot")) = true
    · rw [if_pos r]
      by_cases g1 : argv.getD 3 "" = "tar.gz"
      · rw [if_pos g1]; exact RunShape.acc w _ _ _ rfl
      rw [if_neg g1]
      by_cases g2 : argv.getD 3 "" = "tar.bz2"
      · rw [if_pos g2]; exact RunShape.acc w _ _ _ rfl
      rw [if_neg g2]
      by_cases g3 : argv.getD 3 "" = "tar"
      · rw [if_pos g3]; exact RunShape.acc w _ _ _ rfl
      · rw [if_neg g3]
        exact RunShape.rej w _ _ (by decide) (by simp [Event.isMarkerCheck])
    · rw [if_neg r]; exact RunShape.rej w _ _ (by decide) (by simp [Event.isMarkerCheck])
  rw [if_neg c2]
  by_cases c3 : argv.getD 1 "" = "set_permissions_2_2"
  · rw [if_pos c3]
    by_cases h5 : argv.length ≠ 3
    · rw [if_pos h5]; exact RunShape.rej w _ _ (by decide) (by simp)
    rw [if_neg h5]
    by_cases r : w.readable (truncPath (argv.getD 2 "" ++ "/emlix-chroot")) = true
    · rw [if_pos r]; exact RunShape.acc w _ _ _ rfl
    · rw [if_neg r]; exact RunShape.rej w _ _ (by decide) (by simp [Event.isMarkerCheck])
  rw [if_neg c3]
  by_cases c4 : argv.getD 1 "" = "remove_chroot_2_2"
  · rw [if_pos c4]
    by_cases h5 : argv.length ≠ 3
    · rw [if_pos h5]; exact RunShape.rej w _ _ (by decide) (by simp)
    rw [if_neg h5]
    by_cases r : w.readable (truncPath (argv.getD 2 "" ++ "/emlix-chroot")) = true
    · rw [if_pos r]; exact RunShape.acc w _ _ _ rfl
    · rw [if_neg r]; exact RunShape.rej w _ _ (by decide) (by simp [Event.isMarkerCheck])
  rw [if_neg c4]
  by_cases c5 : argv.getD 1 "" = "chroot_2_3"
  · rw [if_pos c5, if_neg h1]
    by_cases r : w.readable (truncPath (argv.getD 2 "" ++ "/e2factory-chroot")) = true
    · rw [if_pos r]; exact RunShape.acc w _ _ _ rfl
    · rw [if_neg r]; exact RunShape.rej w _ _ (by decide) (by simp [Event.isMarkerCheck])
  rw [if_neg c5]
  by_cases c6 : argv.getD 1 "" = "extract_tar_2_3"
  · rw [if_pos c6]
    by_cases h5 : argv.length ≠ 5
    · rw [if_pos h5]; exact RunShape.rej w _ _ (by decide) (by simp)
    rw [if_neg h5]
    by_cases r : w.readable (truncPath (argv.getD 2 "" ++ "/e2factory-chroot")) = true
    · rw [if_pos r]
      by_cases g1 : argv.getD 3 "" = "tar.gz"
      · rw [if_pos g1]; exact RunShape.acc w _ _ _ rfl
      rw [if_neg g1]
      by_cases g2 : argv.getD 3 "" = "tar.bz2"
      · rw [if_pos g2]; exact RunShape.acc w _ _ _ rfl
      rw [if_neg g2]
      by_cases g3 : argv.getD 3 "" = "tar"
      · rw [if_pos g3]; exact RunShape.acc w _ _ _ rfl
      · rw [if_neg g3]
        exact RunShape.rej w _ _ (by decide) (by simp [Event.isMarkerCheck])
    · rw [if_neg r]; exact RunShape.rej w _ _ (by decide) (by simp [Event.isMarkerCheck])
  rw [if_neg c6]
  by_cases c7 : argv.getD 1 "" = "set_permissions_2_3"
  · rw [if_pos c7]
    by_cases h5 : argv.length ≠ 3
    · rw [if_pos h5]; exact RunShape.rej w _ _ (by decide) (by simp)
    rw [if_neg h5]
    by_cases r : w.readable (truncPath (argv.getD 2 "" ++ "/e2factory-chroot")) = true
    · rw [if_pos r]; exact RunShape.acc w _ _ _ rfl
    · rw [if_neg r]; exact RunShape.rej w _ _ (by decide) (by simp [Event.isMarkerCheck])
  rw [if_neg c7]
  by_cases c8 : argv.getD 1 "" = "remove_chroot_2_3"
  · rw [if_pos c8]
    by_cases h5 : argv.length ≠ 3
    · rw [if_pos h5]; exact RunShape.rej w _ _ (by decide) (by simp)
    rw [if_neg h5]
    by_cases r : w.readable (truncPath (argv.getD 2 "" ++ "/e2factory-chroot")) = true
    · rw [if_pos r]; exact RunShape.acc w _ _ _ rfl
    · rw [if_neg r]; exact RunShape.rej w _ _ (by decide) (by simp [Event.isMarkerCheck])
  rw [if_neg c8]
  exact RunShape.rej w _ _ (by decide) (by simp)

/-! ### C1: rejections exit 99, mutate nothing, and validation rejections
precede any privilege change -/

lemma singleton_marker (ev : Event) (hev : ev.isMarkerCheck = true) :
    ∀ e ∈ [ev], e.isMarkerCheck = true := by
  intro e he
  rw [List.mem_singleton] at he
  subst he
  exact hev

/-- C1: whenever the global broker terminates by itself (any rejection:
argument error, unknown command, archive-kind error, marker failure,
privilege failure, exec failure), the exit code is 99 — the only exit code
the broker produces — the trace contains no filesystem-mutating action, and
if the diagnostic is one of the validation diagnostics the trace contains no
privilege-change attempt at all. -/
theorem c1_rejections_exit99 (t : Tools) (w : World) (argv : List String)
    (c : Nat) (m : String) (h : (e2su22_global t w argv).1 = .exited c m) :
    c = 99 ∧ (∀ e ∈ (e2su22_global t w argv).2, e.mutatesFs = false) ∧
      (m ∈ validationMsgs →
        ∀ e ∈ (e2su22_global t w argv).2, e.isPrivChange = false) := by
  rcases global_cases t w argv with ⟨m', tr, hm', heq, htr⟩ | ⟨tool, args, ev, heq, hev⟩
  · rw [heq] at h ⊢
    simp only [perr] at h
    injection h with hc hm
    exact ⟨hc.symm, fun e he => markerCheck_not_mutates e (htr e he),
      fun _ e he => markerCheck_not_privChange e (htr e he)⟩
  · rw [heq] at h ⊢
    obtain ⟨hc, hnm⟩ := privExec_exited_elim w tool args [ev] c m h
    exact ⟨hc, privExec_no_mutation w tool args [ev] c m (singleton_marker ev hev) h,
      fun hmv => (hnm hmv).elim⟩

/-- Witness for C1 at a concrete rejected invocation (argc = 1). -/
theorem c1_rejections_exit99_witness :
    99 = 99 ∧ (∀ e ∈ (e2su22_global cTools cWorld ["e2-su-2.2"]).2, e.mutatesFs = false) ∧
      ("too few arguments" ∈ validationMsgs →
        ∀ e ∈ (e2su22_global cTools cWorld ["e2-su-2.2"]).2, e.isPrivChange = false) :=
  c1_rejections_exit99 cTools cWorld ["e2-su-2.2"] 99 "too few arguments" (by decide)

/-! ### C3: environment clearing, identity change and exec in fixed order -/

/-- C3: on every accepted command (one that reaches a privilege-change
attempt), the privilege/exec actions of the trace are exactly, in order:
`clearenv()` first, then `setuid(0)`, `setgid(0)`, `setgroups(0, NULL)`,
then the process-image replacement — so the environment is cleared strictly
before any identity change and everything precedes the exec.  The first
failing step exits 99 with its specific diagnostic and no exec attempt
appears after it; on full success the replacement runs with the cleared
(empty) environment. -/
theorem c3_sanitize_drop_exec_order (t : Tools) (w : World) (argv : List String)
    (h : ∃ e ∈ (e2su22_global t w argv).2, e.isPrivChange = true) :
    (w.clearenvOk = false →
        ((e2su22_global t w argv).2).filter Event.isPrivOrExec = [.clearEnv false] ∧
          (e2su22_global t w argv).1 = .exited 99 "can't clearenv()") ∧
    (w.clearenvOk = true → w.setuidOk = false →
        ((e2su22_global t w argv).2).filter Event.isPrivOrExec =
            [.clearEnv true, .setUid0 false] ∧
          (e2su22_global t w argv).1 = .exited 99 "can't setuid(0)") ∧
    (w.clearenvOk = true → w.setuidOk = true → w.setgidOk = false →
        ((e2su22_global t w argv).2).filter Event.isPrivOrExec =
            [.clearEnv true, .setUid0 true, .setGid0 false] ∧
          (e2su22_global t w argv).1 = .exited 99 "can't setgid(0)") ∧
    (w.clearenvOk = true → w.setuidOk = true → w.setgidOk = true → w.setgroupsOk = false →
        ((e2su22_global t w argv).2).filter Event.isPrivOrExec =
            [.clearEnv true, .setUid0 true, .setGid0 true, .setGroupsEmpty false] ∧
          (e2su22_global t w argv).1 = .exited 99 "can't setgroups()") ∧
    (w.clearenvOk = true → w.setuidOk = true → w.setgidOk = true → w.setgroupsOk = true →
        ∃ tool args,
          ((e2su22_global t w argv).2).filter Event.isPrivOrExec =
              [.clearEnv true, .setUid0 true, .setGid0 true, .setGroupsEmpty true,
                .execAttempt tool args w.execOk] ∧
            (w.execOk = true → (e2su22_global t w argv).1 = .replaced tool args []) ∧
            (w.execOk = false → (e2su22_global t w argv).1 = .exited 99 "can't exec")) := by
  rcases global_cases t w argv with ⟨m', tr, hm', heq, htr⟩ | ⟨tool, args, ev, heq, hev⟩
  · exfalso
    obtain ⟨e, he, hpc⟩ := h
    rw [heq] at he
    exact absurd hpc (by simp [markerCheck_not_privChange e (htr e he)])
  · rw [heq]
    have hpre := singleton_marker ev hev
    refine ⟨fun h1 => privExec_filter_clearenv w tool args [ev] hpre h1,
      fun h1 h2 => privExec_filter_setuid w tool args [ev] hpre h1 h2,
      fun h1 h2 h3 => privExec_filter_setgid w tool args [ev] hpre h1 h2 h3,
      fun h1 h2 h3 h4 => privExec_filter_setgroups w tool args [ev] hpre h1 h2 h3 h4,
      fun h1 h2 h3 h4 =>
        ⟨tool, args, privExec_filter_allOk w tool args [ev] hpre h1 h2 h3 h4⟩⟩

/-- Witness for C3 at a concrete accepted invocation. -/
theorem c3_sanitize_drop_exec_order_witness :
    (cWorld.clearenvOk = false →
        ((e2su22_global cTools cWorld ["e2-su-2.2", "chroot_2_2", "/s"]).2).filter
            Event.isPrivOrExec = [.clearEnv false] ∧
          (e2su22_global cTools cWorld ["e2-su-2.2", "chroot_2_2", "/s"]).1 =
            .exited 99 "can't clearenv()") ∧
    (cWorld.clearenvOk = true → cWorld.setuidOk = false →
        ((e2su22_global cTools cWorld ["e2-su-2.2", "chroot_2_2", "/s"]).2).filter
            Event.isPrivOrExec = [.clearEnv true, .setUid0 false] ∧
          (e2su22_global cTools cWorld ["e2-su-2.2", "chroot_2_2", "/s"]).1 =
            .exited 99 "can't setuid(0)") ∧
    (cWorld.clearenvOk = true → cWorld.setuidOk = true → cWorld.setgidOk = false →
        ((e2su22_global cTools cWorld ["e2-su-2.2", "chroot_2_2", "/s"]).2).filter
            Event.isPrivOrExec = [.clearEnv true, .setUid0 true, .setGid0 false] ∧
          (e2su22_global cTools cWorld ["e2-su-2.2", "chroot_2_2", "/s"]).1 =
            .exited 99 "can't setgid(0)") ∧
    (cWorld.clearenvOk = true → cWorld.setuidOk = true → cWorld.setgidOk = true →
        cWorld.setgroupsOk = false →
        ((e2su22_global cTools cWorld ["e2-su-2.2", "chroot_2_2", "/s"]).2).filter
            Event.isPrivOrExec =
            [.clearEnv true, .setUid0 true, .setGid0 true, .setGroupsEmpty false] ∧
          (e2su22_global cTools cWorld ["e2-su-2.2", "chroot_2_2", "/s"]).1 =
            .exited 99 "can't setgroups()") ∧
    (cWorld.clearenvOk = true → cWorld.setuidOk = true → cWorld.setgidOk = true →
        cWorld.setgroupsOk = true →
        ∃ tool args,
          ((e2su22_global cTools cWorld ["e2-su-2.2", "chroot_2_2", "/s"]).2).filter
              Event.isPrivOrExec =
              [.clearEnv true, .setUid0 true, .setGid0 true, .setGroupsEmpty true,
                .execAttempt tool args cWorld.execOk] ∧
            (cWorld.execOk = true →
              (e2su22_global cTools cWorld ["e2-su-2.2", "chroot_2_2", "/s"]).1 =
                .replaced tool args []) ∧
            (cWorld.execOk = false →
              (e2su22_global cTools cWorld ["e2-su-2.2", "chroot_2_2", "/s"]).1 =
                .exited 99 "can't exec")) :=
  c3_sanitize_drop_exec_order cTools cWorld ["e2-su-2.2", "chroot_2_2", "/s"]
    ⟨.clearEnv true, by decide, rfl⟩

/-! ### Residual forms of each command's run -/

lemma run_chroot22 (t : Tools) (w : World) (a0 path : String) (rest : List String)
    (hlen : rest.length ≤ 125) :
    e2su22_global t w (a0 :: "chroot_2_2" :: path :: rest) =
      (if w.readable (truncPath (path ++ "/emlix-chroot")) = true then
        privExec w t.chroot_tool (basename t.chroot_tool :: path :: rest)
          [.markerCheck (truncPath (path ++ "/emlix-chroot")) (w.readable (truncPath (path ++ "/emlix-chroot")))]
      else (perr "not a chroot environment",
        [.markerCheck (truncPath (path ++ "/emlix-chroot")) (w.readable (truncPath (path ++ "/emlix-chroot")))])) := by
  have h1 : ¬(rest.length + 1 + 1 + 1 < 3) := by omega
  have h2 : ¬(128 < rest.length + 1 + 1 + 1) := by omega
  unfold e2su22_global
  simp [assert_chroot_environment, h1, h2]

lemma run_extract22 (t : Tools) (w : World) (a0 path kind file : String) :
    e2su22_global t w [a0, "extract_tar_2_2", path, kind, file] =
      (if w.readable (truncPath (path ++ "/emlix-chroot")) = true then
        (if kind = "tar.gz" then
          privExec w t.tar_tool
            [basename t.tar_tool, "-C", path, "--gzip", "-xf", file]
            [.markerCheck (truncPath (path ++ "/emlix-chroot")) (w.readable (truncPath (path ++ "/emlix-chroot")))]
        else if kind = "tar.bz2" then
          privExec w t.tar_tool
            [basename t.tar_tool, "-C", path, "--bzip2", "-xf", file]
            [.markerCheck (truncPath (path ++ "/emlix-chroot")) (w.readable (truncPath (path ++ "/emlix-chroot")))]
        else if kind = "tar" then
          privExec w t.tar_tool
            [basename t.tar_tool, "-C", path, "-xf", file]
            [.markerCheck (truncPath (path ++ "/emlix-chroot")) (w.readable (truncPath (path ++ "/emlix-chroot")))]
        else (perr "wrong tararg argument",
          [.markerCheck (truncPath (path ++ "/emlix-chroot")) (w.readable (truncPath (path ++ "/emlix-chroot")))]))
      else (perr "not a chroot environment",
        [.markerCheck (truncPath (path ++ "/emlix-chroot")) (w.readable (truncPath (path ++ "/emlix-chroot")))])) := by
  unfold e2su22_global
  simp [assert_chroot_environment]

lemma run_setperm22 (t : Tools) (w : World) (a0 path : String) :
    e2su22_global t w [a0, "set_permissions_2_2", path] =
      (if w.readable (truncPath (path ++ "/emlix-chroot")) = true then
        privExec w t.chown_tool [basename t.chown_tool, "root:root", path]
          [.markerCheck (truncPath (path ++ "/emlix-chroot")) (w.readable (truncPath (path ++ "/emlix-chroot")))]
      else (perr "not a chroot environment",
        [.markerCheck (truncPath (path ++ "/emlix-chroot")) (w.readable (truncPath (path ++ "/emlix-chroot")))])) := by
  unfold e2su22_global
  simp [assert_chroot_environment]

lemma run_remove22 (t : Tools) (w : World) (a0 path : String) :
    e2su22_global t w [a0, "remove_chroot_2_2", path] =
      (if w.readable (truncPath (path ++ "/emlix-chroot")) = true then
        privExec w t.rm_tool [basename t.rm_tool, "-r", "-f", path]
          [.markerCheck (truncPath (path ++ "/emlix-chroot")) (w.readable (truncPath (path ++ "/emlix-chroot")))]
      else (perr "not a chroot environment",
        [.markerCheck (truncPath (path ++ "/emlix-chroot")) (w.readable (truncPath (path ++ "/emlix-chroot")))])) := by
  unfold e2su22_global
  simp [assert_chroot_environment]

lemma run_chroot23 (t : Tools) (w : World) (a0 base : String) (rest : List String)
    (hlen : rest.length ≤ 125) :
    e2su22_global t w (a0 :: "chroot_2_3" :: base :: rest) =
      (if w.readable (truncPath (base ++ "/e2factory-chroot")) = true then
        privExec w t.chroot_tool
          (basename t.chroot_tool :: truncPath (base ++ "/chroot") :: rest)
          [.markerCheck (truncPath (base ++ "/e2factory-chroot")) (w.readable (truncPath (base ++ "/e2factory-chroot")))]
      else (perr "not a chroot environment",
        [.markerCheck (truncPath (base ++ "/e2factory-chroot")) (w.readable (truncPath (base ++ "/e2factory-chroot")))])) := by
  have h1 : ¬(rest.length + 1 + 1 + 1 < 3) := by omega
  have h2 : ¬(128 < rest.length + 1 + 1 + 1) := by omega
  unfold e2su22_global
  simp [assert_chroot_environment_2_3, h1, h2]

lemma run_extract23 (t : Tools) (w : World) (a0 base kind file : String) :
    e2su22_global t w [a0, "extract_tar_2_3", base, kind, file] =
      (if w.readable (truncPath (base ++ "/e2factory-chroot")) = true then
        (if kind = "tar.gz" then
          privExec w t.tar_tool
            [basename t.tar_tool, "-C", truncPath (base ++ "/chroot"), "--gzip", "-xf", file]
            [.markerCheck (truncPath (base ++ "/e2factory-chroot")) (w.readable (truncPath (base ++ "/e2factory-chroot")))]
        else if kind = "tar.bz2" then
          privExec w t.tar_tool
            [basename t.tar_tool, "-C", truncPath (base ++ "/chroot"), "--bzip2", "-xf", file]
            [.markerCheck (truncPath (base ++ "/e2factory-chroot")) (w.readable (truncPath (base ++ "/e2factory-chroot")))]
        else if kind = "tar" then
          privExec w t.tar_tool
            [basename t.tar_tool, "-C", truncPath (base ++ "/chroot"), "-xf", file]
            [.markerCheck (truncPath (base ++ "/e2factory-chroot")) (w.readable (truncPath (base ++ "/e2factory-chroot")))]
        else (perr "wrong tararg argument",
          [.markerCheck (truncPath (base ++ "/e2factory-chroot")) (w.readable (truncPath (base ++ "/e2factory-chroot")))]))
      else (perr "not a chroot environment",
        [.markerCheck (truncPath (base ++ "/e2factory-chroot")) (w.readable (truncPath (base ++ "/e2factory-chroot")))])) := by
  unfold e2su22_global
  simp [assert_chroot_environment_2_3]

lemma run_setperm23 (t : Tools) (w : World) (a0 base : String) :
    e2su22_global t w [a0, "set_permissions_2_3", base] =
      (if w.readable (truncPath (base ++ "/e2factory-chroot")) = true then
        privExec w t.chown_tool
          [basename t.chown_tool, "root:root", truncPath (base ++ "/chroot")]
          [.markerCheck (truncPath (base ++ "/e2factory-chroot")) (w.readable (truncPath (base ++ "/e2factory-chroot")))]
      else (perr "not a chroot environment",
        [.markerCheck (truncPath (base ++ "/e2factory-chroot")) (w.readable (truncPath (base ++ "/e2factory-chroot")))])) := by
  unfold e2su22_global
  simp [assert_chroot_environment_2_3]

lemma run_remove23 (t : Tools) (w : World) (a0 base : String) :
    e2su22_global t w [a0, "remove_chroot_2_3", base] =
      (if w.readable (truncPath (base ++ "/e2factory-chroot")) = true then
        privExec w t.rm_tool
          [basename t.rm_tool, "-r", "-f", truncPath (base ++ "/chroot")]
          [.markerCheck (truncPath (base ++ "/e2factory-chroot")) (w.readable (truncPath (base ++ "/e2factory-chroot")))]
      else (perr "not a chroot environment",
        [.markerCheck (truncPath (base ++ "/e2factory-chroot")) (w.readable (truncPath (base ++ "/e2factory-chroot")))])) := by
  unfold e2su22_global
  simp [assert_chroot_environment_2_3]

lemma run_generic_extract22 (t : Tools) (w : World) (a0 path kind file : String) :
    e2su22_generic t w [a0, "extract_tar_2_2", path, kind, file] =
      (if w.readable (truncPath (path ++ "/emlix-chroot")) = true then
        (if kind = "tar.gz" then
          privExec w t.tar_tool [basename t.tar_tool, "-C", path, "-xzf", file]
            [.markerCheck (truncPath (path ++ "/emlix-chroot")) (w.readable (truncPath (path ++ "/emlix-chroot")))]
        else if kind = "tar.bz2" then
          privExec w t.tar_tool [basename t.tar_tool, "-C", path, "-xjf", file]
            [.markerCheck (truncPath (path ++ "/emlix-chroot")) (w.readable (truncPath (path ++ "/emlix-chroot")))]
        else if kind = "tar" then
          privExec w t.tar_tool [basename t.tar_tool, "-C", path, "-xf", file]
            [.markerCheck (truncPath (path ++ "/emlix-chroot")) (w.readable (truncPath (path ++ "/emlix-chroot")))]
        else (perr "wrong tararg argument",
          [.markerCheck (truncPath (path ++ "/emlix-chroot")) (w.readable (truncPath (path ++ "/emlix-chroot")))]))
      else (perr "not a chroot environment",
        [.markerCheck (truncPath (path ++ "/emlix-chroot")) (w.readable (truncPath (path ++ "/emlix-chroot")))])) := by
  unfold e2su22_generic
  simp [assert_chroot_environment]

lemma run_generic_extract23 (t : Tools) (w : World) (a0 base kind file : String) :
    e2su22_generic t w [a0, "extract_tar_2_3", base, kind, file] =
      (if w.readable (truncPath (base ++ "/e2factory-chroot")) = true then
        (if kind = "tar.gz" then
          privExec w t.tar_tool
            [basename t.tar_tool, "-C", truncPath (base ++ "/chroot"), "-xzf", file]
            [.markerCheck (truncPath (base ++ "/e2factory-chroot")) (w.readable (truncPath (base ++ "/e2factory-chroot")))]
        else if kind = "tar.bz2" then
          privExec w t.tar_tool
            [basename t.tar_tool, "-C", truncPath (base ++ "/chroot"), "-xjf", file]
            [.markerCheck (truncPath (base ++ "/e2factory-chroot")) (w.readable (truncPath (base ++ "/e2factory-chroot")))]
        else if kind = "tar" then
          privExec w t.tar_tool
            [basename t.tar_tool, "-C", truncPath (base ++ "/chroot"), "-xf", file]
            [.markerCheck (truncPath (base ++ "/e2factory-chroot")) (w.readable (truncPath (base ++ "/e2factory-chroot")))]
        else (perr "wrong tararg argument",
          [.markerCheck (truncPath (base ++ "/e2factory-chroot")) (w.readable (truncPath (base ++ "/e2factory-chroot")))]))
      else (perr "not a chroot environment",
        [.markerCheck (truncPath (base ++ "/e2factory-chroot")) (w.readable (truncPath (base ++ "/e2factory-chroot")))])) := by
  unfold e2su22_generic
  simp [assert_chroot_environment_2_3]

/-! ### C4: arity bounds of the dispatcher and the enter commands -/

lemma privExec_trace_pre (w : World) (tool : String) (args : List String)
    (pre : List Event) : ∀ e ∈ pre, e ∈ (privExec w tool args pre).2 := by
  obtain ⟨rd, ce, su, sg, sgr, ex, env⟩ := w
  unfold privExec setuid_root
  cases ce <;> cases su <;> cases sg <;> cases sgr <;> cases ex <;>
    (intro e he; simp [he])

set_option maxRecDepth 10000 in
/-- C4 counterexample: an enter invocation with 254 trailing tokens is
rejected by the dispatcher (`argc = 257 > 128`) with "too many arguments" —
it does not pass arity validation and no path is ever touched. -/
theorem c4_counterexample :
    (e2su22_global cTools cWorld
        ("e2-su-2.2" :: "chroot_2_2" :: "/s" :: List.replicate 254 "x")).1 =
      .exited 99 "too many arguments" ∧
    (e2su22_global cTools cWorld
        ("e2-su-2.2" :: "chroot_2_2" :: "/s" :: List.replicate 254 "x")).2 = [] := by
  decide

/-- C4 as amended: the dispatcher rejects any argc outside `[3, 128]`
immediately with an empty trace (no path touched), and the enter commands
pass arity validation — their path argument is touched by a marker check —
for every trailing-command length up to 125 (`argc = 128`), the actual
capacity left by the `argc ≤ 128` bound, not 254. -/
theorem c4_arity_bounds (t : Tools) (w : World) :
    (∀ argv : List String, argv.length < 3 →
        e2su22_global t w argv = (perr "too few arguments", [])) ∧
    (∀ argv : List String, argv.length > 128 →
        e2su22_global t w argv = (perr "too many arguments", [])) ∧
    (∀ a0 path : String, ∀ rest : List String, rest.length ≤ 125 →
        ∃ ok, Event.markerCheck (truncPath (path ++ "/emlix-chroot")) ok ∈
          (e2su22_global t w (a0 :: "chroot_2_2" :: path :: rest)).2) ∧
    (∀ a0 base : String, ∀ rest : List String, rest.length ≤ 125 →
        ∃ ok, Event.markerCheck (truncPath (base ++ "/e2factory-chroot")) ok ∈
          (e2su22_global t w (a0 :: "chroot_2_3" :: base :: rest)).2) := by
  refine ⟨?_, ?_, ?_, ?_⟩
  · intro argv h
    unfold e2su22_global
    rw [if_pos h]
  · intro argv h
    unfold e2su22_global
    rw [if_neg (by omega : ¬argv.length < 3), if_pos h]
  · intro a0 path rest hlen
    rw [run_chroot22 t w a0 path rest hlen]
    by_cases r : w.readable (truncPath (path ++ "/emlix-chroot")) = true
    · rw [if_pos r]
      exact ⟨_, privExec_trace_pre w _ _ _ _ (List.mem_singleton_self _)⟩
    · rw [if_neg r]
      exact ⟨_, List.mem_singleton_self _⟩
  · intro a0 base rest hlen
    rw [run_chroot23 t w a0 base rest hlen]
    by_cases r : w.readable (truncPath (base ++ "/e2factory-chroot")) = true
    · rw [if_pos r]
      exact ⟨_, privExec_trace_pre w _ _ _ _ (List.mem_singleton_self _)⟩
    · rw [if_neg r]
      exact ⟨_, List.mem_singleton_self _⟩

/-- Witness for C4's amended statement at concrete inputs. -/
theorem c4_arity_bounds_witness :
    e2su22_global cTools cWorld ["e2-su-2.2"] = (perr "too few arguments", []) ∧
    (∃ ok, Event.markerCheck (truncPath ("/s" ++ "/emlix-chroot")) ok ∈
      (e2su22_global cTools cWorld ["e2-su-2.2", "chroot_2_2", "/s"]).2) :=
  ⟨(c4_arity_bounds cTools cWorld).1 ["e2-su-2.2"] (by decide),
    (c4_arity_bounds cTools cWorld).2.2.1 "e2-su-2.2" "/s" [] (by decide)⟩

/-! ### C8: the legacy enter command's argument vector -/

/-- C8: an accepted `chroot_2_2` invocation replaces the image with the
enter tool, whose argument vector is the tool's program name, then the
caller-given path verbatim, then every trailing caller argument in original
order and unmodified (the C `NULL` terminator corresponds to the end of the
Lean list). -/
theorem c8_chroot22_vector (t : Tools) (w : World) (a0 path : String)
    (rest : List String) (hlen : rest.length ≤ 125)
    (hr : w.readable (truncPath (path ++ "/emlix-chroot")) = true)
    (hp : w.privOk) (he : w.execOk = true) :
    (e2su22_global t w (a0 :: "chroot_2_2" :: path :: rest)).1 =
      .replaced t.chroot_tool (basename t.chroot_tool :: path :: rest) [] := by
  rw [run_chroot22 t w a0 path rest hlen, if_pos hr,
    privExec_replaced_intro w _ _ _ hp he]

/-- Witness for C8 at a concrete accepted enter invocation. -/
theorem c8_chroot22_vector_witness :
    (e2su22_global cTools cWorld
        ("e2-su-2.2" :: "chroot_2_2" :: "/srv/b1" :: ["/bin/sh", "-c", "echo hi"])).1 =
      .replaced cTools.chroot_tool
        (basename cTools.chroot_tool :: "/srv/b1" :: ["/bin/sh", "-c", "echo hi"]) [] :=
  c8_chroot22_vector cTools cWorld "e2-su-2.2" "/srv/b1" ["/bin/sh", "-c", "echo hi"]
    (by decide) (by decide) ⟨rfl, rfl, rfl, rfl⟩ rfl

/-! ### C2: marker validation, and its `PATH_MAX` truncation defect -/

lemma passedValidation_privExec (w : World) (tool : String) (args : List String)
    (pre : List Event) :
    passedValidation (privExec w tool args pre).2 = passedValidation pre := by
  obtain ⟨rd, ce, su, sg, sgr, ex, env⟩ := w
  unfold privExec setuid_root passedValidation
  cases ce <;> cases su <;> cases sg <;> cases sgr <;> cases ex <;>
    simp [List.any_append]

lemma c2World_readable_longA : c2World.readable (truncPath (longA ++ "/emlix-chroot")) = true := by
  show ((truncPath (longA ++ "/emlix-chroot")) == longA) = true
  rw [longA_trunc_emlix]
  exact longA_beq_self

/-- C2 counterexample: with a path of `PATH_MAX - 1` characters, the
`snprintf` in `assert_chroot_environment` truncates the marker name back to
the path itself, so a world in which only that path (and no marker file
under it) is readable is *accepted*: the ownership command proceeds past
validation all the way to the exec, although `<path>/emlix-chroot` is not
readable — contradicting the claimed "only if". -/
theorem c2_counterexample :
    (e2su22_global cTools c2World ["e2-su-2.2", "set_permissions_2_2", longA]).1 =
      .replaced cTools.chown_tool [basename cTools.chown_tool, "root:root", longA] [] ∧
    passedValidation
        (e2su22_global cTools c2World ["e2-su-2.2", "set_permissions_2_2", longA]).2 =
      true ∧
    c2World.readable (longA ++ "/emlix-chroot") = false := by
  refine ⟨?_, ?_, longA_append_emlix_beq⟩
  · rw [run_setperm22 cTools c2World "e2-su-2.2" longA, if_pos c2World_readable_longA,
      privExec_replaced_intro _ _ _ _ ⟨rfl, rfl, rfl, rfl⟩ rfl]
  · rw [run_setperm22 cTools c2World "e2-su-2.2" longA, if_pos c2World_readable_longA,
      passedValidation_privExec]
    simp [passedValidation, c2World_readable_longA]

/-- C2 as amended: for every recognized command with its declared arity
satisfied and a path/base argument short enough that the marker path fits
the `PATH_MAX` buffer untruncated, the command proceeds past marker
validation **iff** the layout-appropriate marker file is readable by the
still-unprivileged process; when it is not readable the broker prints
"not a chroot environment" and exits 99 before any privilege change.  (For
longer arguments the broker checks the truncated name instead — see the
counterexample.) -/
theorem c2_marker_validation (t : Tools) (w : World) (argv : List String)
    (hrec : argv.getD 1 "" ∈ recognizedCmds) (har : arityOk argv = true)
    (hfit : (claimMarkerName argv).data.length ≤ pathMax - 1) :
    (passedValidation (e2su22_global t w argv).2 = true ↔
      w.readable (claimMarkerName argv) = true) ∧
    (w.readable (claimMarkerName argv) = false →
      (e2su22_global t w argv).1 = .exited 99 "not a chroot environment" ∧
      ∀ e ∈ (e2su22_global t w argv).2, e.isPrivChange = false) := by
  rcases argv with _ | ⟨a0, argv⟩
  · simp [arityOk] at har
  rcases argv with _ | ⟨a1, argv⟩
  · simp [arityOk] at har
  rcases argv with _ | ⟨a2, l⟩
  · simp [arityOk] at har
  have hrec2 : a1 ∈ recognizedCmds := hrec
  have hname22 : claimMarkerName (a0 :: a1 :: a2 :: l) =
      (if a1 ∈ cmds23 then a2 ++ "/e2factory-chroot" else a2 ++ "/emlix-chroot") := rfl
  fin_cases hrec2
  -- chroot_2_2
  · have hlen : l.length ≤ 125 := by
      simp [arityOk] at har
      omega
    have hn : claimMarkerName (a0 :: "chroot_2_2" :: a2 :: l) = a2 ++ "/emlix-chroot" := by
      rw [hname22]
      simp [cmds23]
    rw [hn] at hfit ⊢
    rw [run_chroot22 t w a0 a2 l hlen, truncPath_eq_of_le _ hfit]
    by_cases r : w.readable (a2 ++ "/emlix-chroot") = true
    · rw [if_pos r]
      refine ⟨iff_of_true ?_ r, fun hf => by rw [hf] at r; exact absurd r (by decide)⟩
      rw [passedValidation_privExec]
      simp [passedValidation, r]
    · rw [if_neg r]
      simp only [Bool.not_eq_true] at r
      refine ⟨by simp [passedValidation, r], fun _ => ⟨rfl, ?_⟩⟩
      intro e he
      rw [List.mem_singleton] at he
      subst he
      rfl
  -- extract_tar_2_2
  · rcases l with _ | ⟨a3, l⟩
    · simp [arityOk] at har
    rcases l with _ | ⟨a4, l⟩
    · simp [arityOk] at har
    rcases l with _ | ⟨a5, l⟩
    swap
    · simp [arityOk] at har
    have hn : claimMarkerName [a0, "extract_tar_2_2", a2, a3, a4] =
        a2 ++ "/emlix-chroot" := by
      rw [hname22]
      simp [cmds23]
    rw [hn] at hfit ⊢
    rw [run_extract22 t w a0 a2 a3 a4, truncPath_eq_of_le _ hfit]
    by_cases r : w.readable (a2 ++ "/emlix-chroot") = true
    · rw [if_pos r]
      refine ⟨iff_of_true ?_ r, fun hf => by rw [hf] at r; exact absurd r (by decide)⟩
      split
      · rw [passedValidation_privExec]; simp [passedValidation, r]
      split
      · rw [passedValidation_privExec]; simp [passedValidation, r]
      split
      · rw [passedValidation_privExec]; simp [passedValidation, r]
      · simp [passedValidation, r]
    · rw [if_neg r]
      simp only [Bool.not_eq_true] at r
      refine ⟨by simp [passedValidation, r], fun _ => ⟨rfl, ?_⟩⟩
      intro e he
      rw [List.mem_singleton] at he
      subst he
      rfl
  -- set_permissions_2_2
  · rcases l with _ | ⟨a3, l⟩
    swap
    · simp [arityOk] at har
    have hn : claimMarkerName [a0, "set_permissions_2_2", a2] =
        a2 ++ "/emlix-chroot" := by
      rw [hname22]
      simp [cmds23]
    rw [hn] at hfit ⊢
    rw [run_setperm22 t w a0 a2, truncPath_eq_of_le _ hfit]
    by_cases r : w.readable (a2 ++ "/emlix-chroot") = true
    · rw [if_pos r]
      refine ⟨iff_of_true ?_ r, fun hf => by rw [hf] at r; exact absurd r (by decide)⟩
      rw [passedValidation_privExec]
      simp [passedValidation, r]
    · rw [if_neg r]
      simp only [Bool.not_eq_true] at r
      refine ⟨by simp [passedValidation, r], fun _ => ⟨rfl, ?_⟩⟩
      intro e he
      rw [List.mem_singleton] at he
      subst he
      rfl
  -- remove_chroot_2_2
  · rcases l with _ | ⟨a3, l⟩
    swap
    · simp [arityOk] at har
    have hn : claimMarkerName [a0, "remove_chroot_2_2", a2] =
        a2 ++ "/emlix-chroot" := by
      rw [hname22]
      simp [cmds23]
    rw [hn] at hfit ⊢
    rw [run_remove22 t w a0 a2, truncPath_eq_of_le _ hfit]
    by_cases r : w.readable (a2 ++ "/emlix-chroot") = true
    · rw [if_pos r]
      refine ⟨iff_of_true ?_ r, fun hf => by rw [hf] at r; exact absurd r (by decide)⟩
      rw [passedValidation_privExec]
      simp [passedValidation, r]
    · rw [if_neg r]
      simp only [Bool.not_eq_true] at r
      refine ⟨by simp [passedValidation, r], fun _ => ⟨rfl, ?_⟩⟩
      intro e he
      rw [List.mem_singleton] at he
      subst he
      rfl
  -- chroot_2_3
  · have hlen : l.length ≤ 125 := by
      simp [arityOk] at har
      omega
    have hn : claimMarkerName (a0 :: "chroot_2_3" :: a2 :: l) =
        a2 ++ "/e2factory-chroot" := by
      rw [hname22]
      simp [cmds23]
    rw [hn] at hfit ⊢
    rw [run_chroot23 t w a0 a2 l hlen, truncPath_eq_of_le _ hfit]
    by_cases r : w.readable (a2 ++ "/e2factory-chroot") = true
    · rw [if_pos r]
      refine ⟨iff_of_true ?_ r, fun hf => by rw [hf] at r; exact absurd r (by decide)⟩
      rw [passedValidation_privExec]
      simp [passedValidation, r]
    · rw [if_neg r]
      simp only [Bool.not_eq_true] at r
      refine ⟨by simp [passedValidation, r], fun _ => ⟨rfl, ?_⟩⟩
      intro e he
      rw [List.mem_singleton] at he
      subst he
      rfl
  -- extract_tar_2_3
  · rcases l with _ | ⟨a3, l⟩
    · simp [arityOk] at har
    rcases l with _ | ⟨a4, l⟩
    · simp [arityOk] at har
    rcases l with _ | ⟨a5, l⟩
    swap
    · simp [arityOk] at har
    have hn : claimMarkerName [a0, "extract_tar_2_3", a2, a3, a4] =
        a2 ++ "/e2factory-chroot" := by
      rw [hname22]
      simp [cmds23]
    rw [hn] at hfit ⊢
    rw [run_extract23 t w a0 a2 a3 a4, truncPath_eq_of_le _ hfit]
    by_cases r : w.readable (a2 ++ "/e2factory-chroot") = true
    · rw [if_pos r]
      refine ⟨iff_of_true ?_ r, fun hf => by rw [hf] at r; exact absurd r (by decide)⟩
      split
      · rw [passedValidation_privExec]; simp [passedValidation, r]
      split
      · rw [passedValidation_privExec]; simp [passedValidation, r]
      split
      · rw [passedValidation_privExec]; simp [passedValidation, r]
      · simp [passedValidation, r]
    · rw [if_neg r]
      simp only [Bool.not_eq_true] at r
      refine ⟨by simp [passedValidation, r], fun _ => ⟨rfl, ?_⟩⟩
      intro e he
      rw [List.mem_singleton] at he
      subst he
      rfl
  -- set_permissions_2_3
  · rcases l with _ | ⟨a3, l⟩
    swap
    · simp [arityOk] at har
    have hn : claimMarkerName [a0, "set_permissions_2_3", a2] =
        a2 ++ "/e2factory-chroot" := by
      rw [hname22]
      simp [cmds23]
    rw [hn] at hfit ⊢
    rw [run_setperm23 t w a0 a2, truncPath_eq_of_le _ hfit]
    by_cases r : w.readable (a2 ++ "/e2factory-chroot") = true
    · rw [if_pos r]
      refine ⟨iff_of_true ?_ r, fun hf => by rw [hf] at r; exact absurd r (by decide)⟩
      rw [passedValidation_privExec]
      simp [passedValidation, r]
    · rw [if_neg r]
      simp only [Bool.not_eq_true] at r
      refine ⟨by simp [passedValidation, r], fun _ => ⟨rfl, ?_⟩⟩
      intro e he
      rw [List.mem_singleton] at he
      subst he
      rfl
  -- remove_chroot_2_3
  · rcases l with _ | ⟨a3, l⟩
    swap
    · simp [arityOk] at har
    have hn : claimMarkerName [a0, "remove_chroot_2_3", a2] =
        a2 ++ "/e2factory-chroot" := by
      rw [hname22]
      simp [cmds23]
    rw [hn] at hfit ⊢
    rw [run_remove23 t w a0 a2, truncPath_eq_of_le _ hfit]
    by_cases r : w.readable (a2 ++ "/e2factory-chroot") = true
    · rw [if_pos r]
      refine ⟨iff_of_true ?_ r, fun hf => by rw [hf] at r; exact absurd r (by decide)⟩
      rw [passedValidation_privExec]
      simp [passedValidation, r]
    · rw [if_neg r]
      simp only [Bool.not_eq_true] at r
      refine ⟨by simp [passedValidation, r], fun _ => ⟨rfl, ?_⟩⟩
      intro e he
      rw [List.mem_singleton] at he
      subst he
      rfl

/-- Witness for the amended C2 at a concrete invocation. -/
theorem c2_marker_validation_witness :
    (passedValidation
        (e2su22_global cTools cWorld ["e2-su-2.2", "remove_chroot_2_3", "/b"]).2 = true ↔
      cWorld.readable (claimMarkerName ["e2-su-2.2", "remove_chroot_2_3", "/b"]) = true) ∧
    (cWorld.readable (claimMarkerName ["e2-su-2.2", "remove_chroot_2_3", "/b"]) = false →
      (e2su22_global cTools cWorld ["e2-su-2.2", "remove_chroot_2_3", "/b"]).1 =
        .exited 99 "not a chroot environment" ∧
      ∀ e ∈ (e2su22_global cTools cWorld ["e2-su-2.2", "remove_chroot_2_3", "/b"]).2,
        e.isPrivChange = false) :=
  c2_marker_validation cTools cWorld ["e2-su-2.2", "remove_chroot_2_3", "/b"]
    (by decide) (by decide) (by decide)

/-! ### C7: the operational path of the current-layout commands -/

lemma c2World_readable_longA_23 :
    c2World.readable (truncPath (longA ++ "/e2factory-chroot")) = true := by
  show ((truncPath (longA ++ "/e2factory-chroot")) == longA) = true
  rw [longA_trunc_e2factory]
  exact longA_beq_self

/-- C7 counterexample: with a base path of `PATH_MAX - 1` characters the
`snprintf` that appends `"/chroot"` truncates back to the base itself, so an
accepted `remove_chroot_2_3` invocation passes the **base path itself** — not
`<base>/chroot` — to the remove tool, contradicting "never the base path
itself". -/
theorem c7_counterexample :
    (e2su22_global cTools c2World ["e2-su-2.2", "remove_chroot_2_3", longA]).1 =
      .replaced cTools.rm_tool [basename cTools.rm_tool, "-r", "-f", longA] [] ∧
    longA ≠ longA ++ "/chroot" := by
  refine ⟨?_, fun h => append_ne_self longA "/chroot" (by decide) h.symm⟩
  rw [run_remove23 cTools c2World "e2-su-2.2" longA, if_pos c2World_readable_longA_23,
    longA_trunc_chroot, privExec_replaced_intro _ _ _ _ ⟨rfl, rfl, rfl, rfl⟩ rfl]

/-- C7 as amended: on every accepted current-layout command the operational
path placed into the argument vector is the caller-given base with
`"/chroot"` appended **truncated to the `PATH_MAX` buffer**; whenever the
appended path fits the buffer (base of at most `PATH_MAX - 8` characters)
this is exactly `base ++ "/chroot"`, which is never the base path itself.
The marker is checked at the base path in all cases. -/
theorem c7_op_path (t : Tools) (w : World) (a0 base : String)
    (hr : w.readable (truncPath (base ++ "/e2factory-chroot")) = true)
    (hp : w.privOk) (he : w.execOk = true) :
    (∀ rest : List String, rest.length ≤ 125 →
      (e2su22_global t w (a0 :: "chroot_2_3" :: base :: rest)).1 =
        .replaced t.chroot_tool
          (basename t.chroot_tool :: truncPath (base ++ "/chroot") :: rest) []) ∧
    (∀ kind file : String, kind ∈ (["tar", "tar.gz", "tar.bz2"] : List String) →
      (e2su22_global t w [a0, "extract_tar_2_3", base, kind, file]).1 =
        .replaced t.tar_tool
          ([basename t.tar_tool, "-C", truncPath (base ++ "/chroot")] ++
            longFlagsOf kind ++ ["-xf", file]) []) ∧
    ((e2su22_global t w [a0, "set_permissions_2_3", base]).1 =
      .replaced t.chown_tool
        [basename t.chown_tool, "root:root", truncPath (base ++ "/chroot")] []) ∧
    ((e2su22_global t w [a0, "remove_chroot_2_3", base]).1 =
      .replaced t.rm_tool
        [basename t.rm_tool, "-r", "-f", truncPath (base ++ "/chroot")] []) ∧
    ((base ++ "/chroot").data.length ≤ pathMax - 1 →
      truncPath (base ++ "/chroot") = base ++ "/chroot" ∧
        truncPath (base ++ "/chroot") ≠ base) := by
  refine ⟨?_, ?_, ?_, ?_, ?_⟩
  · intro rest hlen
    rw [run_chroot23 t w a0 base rest hlen, if_pos hr,
      privExec_replaced_intro w _ _ _ hp he]
  · intro kind file hk
    fin_cases hk
    · rw [run_extract23 t w a0 base "tar" file, if_pos hr]
      rw [if_neg (by decide), if_neg (by decide), if_pos rfl,
        privExec_replaced_intro w _ _ _ hp he]
      simp [longFlagsOf]
    · rw [run_extract23 t w a0 base "tar.gz" file, if_pos hr, if_pos rfl,
        privExec_replaced_intro w _ _ _ hp he]
      simp [longFlagsOf]
    · rw [run_extract23 t w a0 base "tar.bz2" file, if_pos hr]
      rw [if_neg (by decide), if_pos rfl, privExec_replaced_intro w _ _ _ hp he]
      simp [longFlagsOf]
  · rw [run_setperm23 t w a0 base, if_pos hr, privExec_replaced_intro w _ _ _ hp he]
  · rw [run_remove23 t w a0 base, if_pos hr, privExec_replaced_intro w _ _ _ hp he]
  · intro hfit
    refine ⟨truncPath_eq_of_le _ hfit, ?_⟩
    rw [truncPath_eq_of_le _ hfit]
    exact append_ne_self base "/chroot" (by decide)

/-- Witness for the amended C7 at a concrete accepted invocation. -/
theorem c7_op_path_witness :
    (e2su22_global cTools cWorld ["e2-su-2.2", "remove_chroot_2_3", "/srv/b1"]).1 =
      .replaced cTools.rm_tool
        [basename cTools.rm_tool, "-r", "-f", truncPath ("/srv/b1" ++ "/chroot")] [] ∧
    (truncPath ("/srv/b1" ++ "/chroot") = "/srv/b1" ++ "/chroot" ∧
      truncPath ("/srv/b1" ++ "/chroot") ≠ "/srv/b1") :=
  ⟨(c7_op_path cTools cWorld "e2-su-2.2" "/srv/b1" (by decide) ⟨rfl, rfl, rfl, rfl⟩
      rfl).2.2.2.1,
    (c7_op_path cTools cWorld "e2-su-2.2" "/srv/b1" (by decide) ⟨rfl, rfl, rfl, rfl⟩
      rfl).2.2.2.2 (by decide)⟩

/-! ### C5: the extract-archive argument vector -/

/-- C5 counterexample: an accepted gzip extraction in the **global** broker
builds a six-element vector — the long flag `--gzip` and `-xf` are separate
elements — not the claimed five-element
`[program-name, "-C", sandbox-root, decompress-flag, archive-file]`. -/
theorem c5_counterexample :
    (e2su22_global cTools cWorld
        ["e2-su-2.2", "extract_tar_2_2", "/s", "tar.gz", "f.tar.gz"]).1 =
      .replaced cTools.tar_tool
        [basename cTools.tar_tool, "-C", "/s", "--gzip", "-xf", "f.tar.gz"] [] ∧
    [basename cTools.tar_tool, "-C", "/s", "--gzip", "-xf", "f.tar.gz"].length ≠ 5 := by
  refine ⟨?_, by decide⟩
  rw [run_extract22 cTools cWorld "e2-su-2.2" "/s" "tar.gz" "f.tar.gz",
    if_pos (by decide), if_pos rfl, privExec_replaced_intro _ _ _ _ ⟨rfl, rfl, rfl, rfl⟩ rfl]

/-- C5 as amended: on every accepted extract-archive invocation the vector is
`[program-name, "-C", sandbox-root] ++ decompress-flags(kind) ++ [archive-file]`
where the flags are the single combined `-xf`/`-xzf`/`-xjf` element in the
generic implementation — there the claim's five-element shape holds exactly —
and the optional long flag (`--gzip`/`--bzip2`) followed by the separate
`-xf` element in the global implementation. -/
theorem c5_extract_vector (t : Tools) (w : World) (a0 path kind file : String)
    (hk : kind ∈ (["tar", "tar.gz", "tar.bz2"] : List String))
    (hr : w.readable (truncPath (path ++ "/emlix-chroot")) = true)
    (hp : w.privOk) (he : w.execOk = true) :
    (e2su22_generic t w [a0, "extract_tar_2_2", path, kind, file]).1 =
      .replaced t.tar_tool [basename t.tar_tool, "-C", path, tarargOf kind, file] [] ∧
    (e2su22_global t w [a0, "extract_tar_2_2", path, kind, file]).1 =
      .replaced t.tar_tool
        ([basename t.tar_tool, "-C", path] ++ longFlagsOf kind ++ ["-xf", file]) [] := by
  fin_cases hk
  · constructor
    · rw [run_generic_extract22 t w a0 path "tar" file, if_pos hr]
      rw [if_neg (by decide), if_neg (by decide), if_pos rfl,
        privExec_replaced_intro w _ _ _ hp he]
      simp [tarargOf]
    · rw [run_extract22 t w a0 path "tar" file, if_pos hr]
      rw [if_neg (by decide), if_neg (by decide), if_pos rfl,
        privExec_replaced_intro w _ _ _ hp he]
      simp [longFlagsOf]
  · constructor
    · rw [run_generic_extract22 t w a0 path "tar.gz" file, if_pos hr, if_pos rfl,
        privExec_replaced_intro w _ _ _ hp he]
      simp [tarargOf]
    · rw [run_extract22 t w a0 path "tar.gz" file, if_pos hr, if_pos rfl,
        privExec_replaced_intro w _ _ _ hp he]
      simp [longFlagsOf]
  · constructor
    · rw [run_generic_extract22 t w a0 path "tar.bz2" file, if_pos hr]
      rw [if_neg (by decide), if_pos rfl, privExec_replaced_intro w _ _ _ hp he]
      simp [tarargOf]
    · rw [run_extract22 t w a0 path "tar.bz2" file, if_pos hr]
      rw [if_neg (by decide), if_pos rfl, privExec_replaced_intro w _ _ _ hp he]
      simp [longFlagsOf]

/-- Witness for the amended C5 at a concrete accepted gzip extraction. -/
theorem c5_extract_vector_witness :
    (e2su22_generic cTools cWorld
        ["e2-su-2.2", "extract_tar_2_2", "/s", "tar.gz", "f.tar.gz"]).1 =
      .replaced cTools.tar_tool
        [basename cTools.tar_tool, "-C", "/s", tarargOf "tar.gz", "f.tar.gz"] [] ∧
    (e2su22_global cTools cWorld
        ["e2-su-2.2", "extract_tar_2_2", "/s", "tar.gz", "f.tar.gz"]).1 =
      .replaced cTools.tar_tool
        ([basename cTools.tar_tool, "-C", "/s"] ++ longFlagsOf "tar.gz" ++
          ["-xf", "f.tar.gz"]) [] :=
  c5_extract_vector cTools cWorld "e2-su-2.2" "/s" "tar.gz" "f.tar.gz"
    (by decide) (by decide) ⟨rfl, rfl, rfl, rfl⟩ rfl

/-! ### C6: archive-kind recognition and mapping -/

/-- C6: for every extract-archive invocation whose marker check passes, the
kind strings `tar`, `tar.gz`, `tar.bz2` — and only these — are accepted;
they map to the plain/gzip/bzip2 decompression flags of the archive tool
(`-xf`, `--gzip -xf`, `--bzip2 -xf` in the global implementation;
`-xf`, `-xzf`, `-xjf` in the generic one), and any other kind string is
rejected in both implementations with the diagnostic
"wrong tararg argument" and exit 99 before any privilege change — never
falling back to the plain kind. -/
theorem c6_archive_kinds (t : Tools) (w : World) (a0 path kind file : String)
    (hr : w.readable (truncPath (path ++ "/emlix-chroot")) = true) :
    (kind ∈ (["tar", "tar.gz", "tar.bz2"] : List String) → w.privOk → w.execOk = true →
      (e2su22_global t w [a0, "extract_tar_2_2", path, kind, file]).1 =
        .replaced t.tar_tool
          ([basename t.tar_tool, "-C", path] ++ longFlagsOf kind ++ ["-xf", file]) [] ∧
      (e2su22_generic t w [a0, "extract_tar_2_2", path, kind, file]).1 =
        .replaced t.tar_tool [basename t.tar_tool, "-C", path, tarargOf kind, file] []) ∧
    (kind ∉ (["tar", "tar.gz", "tar.bz2"] : List String) →
      (e2su22_global t w [a0, "extract_tar_2_2", path, kind, file]).1 =
        .exited 99 "wrong tararg argument" ∧
      (e2su22_generic t w [a0, "extract_tar_2_2", path, kind, file]).1 =
        .exited 99 "wrong tararg argument" ∧
      (∀ e ∈ (e2su22_global t w [a0, "extract_tar_2_2", path, kind, file]).2,
        e.isPrivChange = false) ∧
      (∀ e ∈ (e2su22_generic t w [a0, "extract_tar_2_2", path, kind, file]).2,
        e.isPrivChange = false)) := by
  constructor
  · intro hk hp he
    fin_cases hk
    · refine ⟨?_, ?_⟩
      · rw [run_extract22 t w a0 path "tar" file, if_pos hr]
        rw [if_neg (by decide), if_neg (by decide), if_pos rfl,
          privExec_replaced_intro w _ _ _ hp he]
        simp [longFlagsOf]
      · rw [run_generic_extract22 t w a0 path "tar" file, if_pos hr]
        rw [if_neg (by decide), if_neg (by decide), if_pos rfl,
          privExec_replaced_intro w _ _ _ hp he]
        simp [tarargOf]
    · refine ⟨?_, ?_⟩
      · rw [run_extract22 t w a0 path "tar.gz" file, if_pos hr, if_pos rfl,
          privExec_replaced_intro w _ _ _ hp he]
        simp [longFlagsOf]
      · rw [run_generic_extract22 t w a0 path "tar.gz" file, if_pos hr, if_pos rfl,
          privExec_replaced_intro w _ _ _ hp he]
        simp [tarargOf]
    · refine ⟨?_, ?_⟩
      · rw [run_extract22 t w a0 path "tar.bz2" file, if_pos hr]
        rw [if_neg (by decide), if_pos rfl, privExec_replaced_intro w _ _ _ hp he]
        simp [longFlagsOf]
      · rw [run_generic_extract22 t w a0 path "tar.bz2" file, if_pos hr]
        rw [if_neg (by decide), if_pos rfl, privExec_replaced_intro w _ _ _ hp he]
        simp [tarargOf]
  · intro hk
    have h1 : ¬(kind = "tar.gz") := fun h => hk (by rw [h]; decide)
    have h2 : ¬(kind = "tar.bz2") := fun h => hk (by rw [h]; decide)
    have h3 : ¬(kind = "tar") := fun h => hk (by rw [h]; decide)
    rw [run_extract22 t w a0 path kind file, run_generic_extract22 t w a0 path kind file,
      if_pos hr, if_pos hr, if_neg h1, if_neg h1, if_neg h2, if_neg h2, if_neg h3]
    refine ⟨rfl, rfl, ?_, ?_⟩ <;>
      (intro e he
       rw [List.mem_singleton] at he
       subst he
       rfl)

/-- Witness for C6 at concrete accepted and rejected kinds. -/
theorem c6_archive_kinds_witness :
    ((e2su22_global cTools cWorld
        ["e2-su-2.2", "extract_tar_2_2", "/s", "tar.bz2", "f"]).1 =
      .replaced cTools.tar_tool
        ([basename cTools.tar_tool, "-C", "/s"] ++ longFlagsOf "tar.bz2" ++
          ["-xf", "f"]) [] ∧
    (e2su22_generic cTools cWorld
        ["e2-su-2.2", "extract_tar_2_2", "/s", "tar.bz2", "f"]).1 =
      .replaced cTools.tar_tool
        [basename cTools.tar_tool, "-C", "/s", tarargOf "tar.bz2", "f"] []) ∧
    ((e2su22_global cTools cWorld
        ["e2-su-2.2", "extract_tar_2_2", "/s", "tar.xz", "f"]).1 =
      .exited 99 "wrong tararg argument" ∧
    (e2su22_generic cTools cWorld
        ["e2-su-2.2", "extract_tar_2_2", "/s", "tar.xz", "f"]).1 =
      .exited 99 "wrong tararg argument" ∧
    (∀ e ∈ (e2su22_global cTools cWorld
        ["e2-su-2.2", "extract_tar_2_2", "/s", "tar.xz", "f"]).2,
      e.isPrivChange = false) ∧
    (∀ e ∈ (e2su22_generic cTools cWorld
        ["e2-su-2.2", "extract_tar_2_2", "/s", "tar.xz", "f"]).2,
      e.isPrivChange = false)) :=
  ⟨(c6_archive_kinds cTools cWorld "e2-su-2.2" "/s" "tar.bz2" "f" (by decide)).1
      (by decide) ⟨rfl, rfl, rfl, rfl⟩ rfl,
    (c6_archive_kinds cTools cWorld "e2-su-2.2" "/s" "tar.xz" "f" (by decide)).2
      (by decide)⟩

/-! ### C9: the unprivileged relay -/

/-- C9: for every relay invocation with at least one caller argument whose
identity re-assertion and exec succeed, the relay drops exactly the caller
tokens beginning with a dash, keeps the remaining tokens in their original
order after the fixed tool-name first element, re-asserts the identity
(`setuid(0)`, `setgid(0)`, `setgroups(0, NULL)`) and only then replaces the
process image with the broker on that vector. -/
theorem c9_relay_filter (tn tp : String) (w : RelayWorld) (a0 : String)
    (rest : List String) (hne : rest ≠ []) (hcap : rest.length ≤ 1022)
    (h1 : w.setuidOk = true)
    (h2 : w.setgidOk = true) (h3 : w.setgroupsOk = true) (h4 : w.execOk = true) :
    e2su_relay tn tp w (a0 :: rest) =
      (.replaced tp (tn :: rest.filter fun s => s.data.head? ≠ some '-') w.env,
        [.setUid0 true, .setGid0 true, .setGroupsEmpty true,
          .execAttempt tp (tn :: rest.filter fun s => s.data.head? ≠ some '-') true]) := by
  have hlen : ¬((a0 :: rest).length < 2) := by
    cases rest with
    | nil => exact absurd rfl hne
    | cons b l => simp
  unfold e2su_relay
  rw [if_neg hlen]
  simp [h1, h2, h3, h4]

/-- Witness for C9 at a concrete invocation with a flag-like token. -/
theorem c9_relay_filter_witness :
    e2su_relay "e2-root" "/usr/lib/e2/e2-root" ⟨true, true, true, true, []⟩
        ("e2-su" :: ["chroot_2_2", "-v", "/s"]) =
      (.replaced "/usr/lib/e2/e2-root"
          ("e2-root" :: ["chroot_2_2", "-v", "/s"].filter fun s => s.data.head? ≠ some '-')
          (RelayWorld.mk true true true true []).env,
        [.setUid0 true, .setGid0 true, .setGroupsEmpty true,
          .execAttempt "/usr/lib/e2/e2-root"
            ("e2-root" :: ["chroot_2_2", "-v", "/s"].filter fun s => s.data.head? ≠ some '-')
            true]) :=
  c9_relay_filter "e2-root" "/usr/lib/e2/e2-root" ⟨true, true, true, true, []⟩ "e2-su"
    ["chroot_2_2", "-v", "/s"] (by decide) (by decide) rfl rfl rfl rfl

/-! ### C10: equivalence of the two broker implementations -/

lemma run_generic_chroot22 (t : Tools) (w : World) (a0 path : String)
    (rest : List String) (hlen : rest.length ≤ 125) :
    e2su22_generic t w (a0 :: "chroot_2_2" :: path :: rest) =
      (if w.readable (truncPath (path ++ "/emlix-chroot")) = true then
        privExec w t.chroot_tool (basename t.chroot_tool :: path :: rest)
          [.markerCheck (truncPath (path ++ "/emlix-chroot")) (w.readable (truncPath (path ++ "/emlix-chroot")))]
      else (perr "not a chroot environment",
        [.markerCheck (truncPath (path ++ "/emlix-chroot")) (w.readable (truncPath (path ++ "/emlix-chroot")))])) := by
  have h1 : ¬(rest.length + 1 + 1 + 1 < 3) := by omega
  have h2 : ¬(128 < rest.length + 1 + 1 + 1) := by omega
  unfold e2su22_generic
  simp [assert_chroot_environment, h1, h2]

lemma run_generic_setperm22 (t : Tools) (w : World) (a0 path : String) :
    e2su22_generic t w [a0, "set_permissions_2_2", path] =
      (if w.readable (truncPath (path ++ "/emlix-chroot")) = true then
        privExec w t.chown_tool [basename t.chown_tool, "root:root", path]
          [.markerCheck (truncPath (path ++ "/emlix-chroot")) (w.readable (truncPath (path ++ "/emlix-chroot")))]
      else (perr "not a chroot environment",
        [.markerCheck (truncPath (path ++ "/emlix-chroot")) (w.readable (truncPath (path ++ "/emlix-chroot")))])) := by
  unfold e2su22_generic
  simp [assert_chroot_environment]

lemma run_generic_remove22 (t : Tools) (w : World) (a0 path : String) :
    e2su22_generic t w [a0, "remove_chroot_2_2", path] =
      (if w.readable (truncPath (path ++ "/emlix-chroot")) = true then
        privExec w t.rm_tool [basename t.rm_tool, "-r", "-f", path]
          [.markerCheck (truncPath (path ++ "/emlix-chroot")) (w.readable (truncPath (path ++ "/emlix-chroot")))]
      else (perr "not a chroot environment",
        [.markerCheck (truncPath (path ++ "/emlix-chroot")) (w.readable (truncPath (path ++ "/emlix-chroot")))])) := by
  unfold e2su22_generic
  simp [assert_chroot_environment]

lemma run_generic_chroot23 (t : Tools) (w : World) (a0 base : String)
    (rest : List String) (hlen : rest.length ≤ 125) :
    e2su22_generic t w (a0 :: "chroot_2_3" :: base :: rest) =
      (if w.readable (truncPath (base ++ "/e2factory-chroot")) = true then
        privExec w t.chroot_tool
          (basename t.chroot_tool :: truncPath (base ++ "/chroot") :: rest)
          [.markerCheck (truncPath (base ++ "/e2factory-chroot")) (w.readable (truncPath (base ++ "/e2factory-chroot")))]
      else (perr "not a chroot environment",
        [.markerCheck (truncPath (base ++ "/e2factory-chroot")) (w.readable (truncPath (base ++ "/e2factory-chroot")))])) := by
  have h1 : ¬(rest.length + 1 + 1 + 1 < 3) := by omega
  have h2 : ¬(128 < rest.length + 1 + 1 + 1) := by omega
  unfold e2su22_generic
  simp [assert_chroot_environment_2_3, h1, h2]

lemma run_generic_setperm23 (t : Tools) (w : World) (a0 base : String) :
    e2su22_generic t w [a0, "set_permissions_2_3", base] =
      (if w.readable (truncPath (base ++ "/e2factory-chroot")) = true then
        privExec w t.chown_tool
          [basename t.chown_tool, "root:root", truncPath (base ++ "/chroot")]
          [.markerCheck (truncPath (base ++ "/e2factory-chroot")) (w.readable (truncPath (base ++ "/e2factory-chroot")))]
      else (perr "not a chroot environment",
        [.markerCheck (truncPath (base ++ "/e2factory-chroot")) (w.readable (truncPath (base ++ "/e2factory-chroot")))])) := by
  unfold e2su22_generic
  simp [assert_chroot_environment_2_3]

lemma run_generic_remove23 (t : Tools) (w : World) (a0 base : String) :
    e2su22_generic t w [a0, "remove_chroot_2_3", base] =
      (if w.readable (truncPath (base ++ "/e2factory-chroot")) = true then
        privExec w t.rm_tool
          [basename t.rm_tool, "-r", "-f", truncPath (base ++ "/chroot")]
          [.markerCheck (truncPath (base ++ "/e2factory-chroot")) (w.readable (truncPath (base ++ "/e2factory-chroot")))]
      else (perr "not a chroot environment",
        [.markerCheck (truncPath (base ++ "/e2factory-chroot")) (w.readable (truncPath (base ++ "/e2factory-chroot")))])) := by
  unfold e2su22_generic
  simp [assert_chroot_environment_2_3]

lemma wrongargs_g_extract22 (t : Tools) (w : World) (a0 a2 : String)
    (l : List String) (hlen : l.length + 3 <= 128) (hne : l.length + 3 ≠ 5) :
    e2su22_global t w (a0 :: "extract_tar_2_2" :: a2 :: l) =
      (perr "wrong number of arguments", []) := by
  have h1 : ¬(l.length + 1 + 1 + 1 < 3) := by omega
  have h2 : ¬(128 < l.length + 1 + 1 + 1) := by omega
  have h3 : l.length + 1 + 1 + 1 ≠ 5 := by omega
  unfold e2su22_global
  simp [h1, h2, h3]

lemma wrongargs_g_extract23 (t : Tools) (w : World) (a0 a2 : String)
    (l : List String) (hlen : l.length + 3 <= 128) (hne : l.length + 3 ≠ 5) :
    e2su22_global t w (a0 :: "extract_tar_2_3" :: a2 :: l) =
      (perr "wrong number of arguments", []) := by
  have h1 : ¬(l.length + 1 + 1 + 1 < 3) := by omega
  have h2 : ¬(128 < l.length + 1 + 1 + 1) := by omega
  have h3 : l.length + 1 + 1 + 1 ≠ 5 := by omega
  unfold e2su22_global
  simp [h1, h2, h3]

lemma wrongargs_g_setperm22 (t : Tools) (w : World) (a0 a2 : String)
    (l : List String) (hlen : l.length + 3 <= 128) (hne : l.length + 3 ≠ 3) :
    e2su22_global t w (a0 :: "set_permissions_2_2" :: a2 :: l) =
      (perr "wrong number of arguments", []) := by
  have h1 : ¬(l.length + 1 + 1 + 1 < 3) := by omega
  have h2 : ¬(128 < l.length + 1 + 1 + 1) := by omega
  have h3 : l.length + 1 + 1 + 1 ≠ 3 := by omega
  unfold e2su22_global
  simp [h1, h2, h3]

lemma wrongargs_g_remove22 (t : Tools) (w : World) (a0 a2 : String)
    (l : List String) (hlen : l.length + 3 <= 128) (hne : l.length + 3 ≠ 3) :
    e2su22_global t w (a0 :: "remove_chroot_2_2" :: a2 :: l) =
      (perr "wrong number of arguments", []) := by
  have h1 : ¬(l.length + 1 + 1 + 1 < 3) := by omega
  have h2 : ¬(128 < l.length + 1 + 1 + 1) := by omega
  have h3 : l.length + 1 + 1 + 1 ≠ 3 := by omega
  unfold e2su22_global
  simp [h1, h2, h3]

lemma wrongargs_g_setperm23 (t : Tools) (w : World) (a0 a2 : String)
    (l : List String) (hlen : l.length + 3 <= 128) (hne : l.length + 3 ≠ 3) :
    e2su22_global t w (a0 :: "set_permissions_2_3" :: a2 :: l) =
      (perr "wrong number of arguments", []) := by
  have h1 : ¬(l.length + 1 + 1 + 1 < 3) := by omega
  have h2 : ¬(128 < l.length + 1 + 1 + 1) := by omega
  have h3 : l.length + 1 + 1 + 1 ≠ 3 := by omega
  unfold e2su22_global
  simp [h1, h2, h3]

lemma wrongargs_g_remove23 (t : Tools) (w : World) (a0 a2 : String)
    (l : List String) (hlen : l.length + 3 <= 128) (hne : l.length + 3 ≠ 3) :
    e2su22_global t w (a0 :: "remove_chroot_2_3" :: a2 :: l) =
      (perr "wrong number of arguments", []) := by
  have h1 : ¬(l.length + 1 + 1 + 1 < 3) := by omega
  have h2 : ¬(128 < l.length + 1 + 1 + 1) := by omega
  have h3 : l.length + 1 + 1 + 1 ≠ 3 := by omega
  unfold e2su22_global
  simp [h1, h2, h3]

lemma wrongargs_e_extract22 (t : Tools) (w : World) (a0 a2 : String)
    (l : List String) (hlen : l.length + 3 <= 128) (hne : l.length + 3 ≠ 5) :
    e2su22_generic t w (a0 :: "extract_tar_2_2" :: a2 :: l) =
      (perr "wrong number of arguments", []) := by
  have h1 : ¬(l.length + 1 + 1 + 1 < 3) := by omega
  have h2 : ¬(128 < l.length + 1 + 1 + 1) := by omega
  have h3 : l.length + 1 + 1 + 1 ≠ 5 := by omega
  unfold e2su22_generic
  simp [h1, h2, h3]

lemma wrongargs_e_extract23 (t : Tools) (w : World) (a0 a2 : String)
    (l : List String) (hlen : l.length + 3 <= 128) (hne : l.length + 3 ≠ 5) :
    e2su22_generic t w (a0 :: "extract_tar_2_3" :: a2 :: l) =
      (perr "wrong number of arguments", []) := by
  have h1 : ¬(l.length + 1 + 1 + 1 < 3) := by omega
  have h2 : ¬(128 < l.length + 1 + 1 + 1) := by omega
  have h3 : l.length + 1 + 1 + 1 ≠ 5 := by omega
  unfold e2su22_generic
  simp [h1, h2, h3]

lemma wrongargs_e_setperm22 (t : Tools) (w : World) (a0 a2 : String)
    (l : List String) (hlen : l.length + 3 <= 128) (hne : l.length + 3 ≠ 3) :
    e2su22_generic t w (a0 :: "set_permissions_2_2" :: a2 :: l) =
      (perr "wrong number of arguments", []) := by
  have h1 : ¬(l.length + 1 + 1 + 1 < 3) := by omega
  have h2 : ¬(128 < l.length + 1 + 1 + 1) := by omega
  have h3 : l.length + 1 + 1 + 1 ≠ 3 := by omega
  unfold e2su22_generic
  simp [h1, h2, h3]

lemma wrongargs_e_remove22 (t : Tools) (w : World) (a0 a2 : String)
    (l : List String) (hlen : l.length + 3 <= 128) (hne : l.length + 3 ≠ 3) :
    e2su22_generic t w (a0 :: "remove_chroot_2_2" :: a2 :: l) =
      (perr "wrong number of arguments", []) := by
  have h1 : ¬(l.length + 1 + 1 + 1 < 3) := by omega
  have h2 : ¬(128 < l.length + 1 + 1 + 1) := by omega
  have h3 : l.length + 1 + 1 + 1 ≠ 3 := by omega
  unfold e2su22_generic
  simp [h1, h2, h3]

lemma wrongargs_e_setperm23 (t : Tools) (w : World) (a0 a2 : String)
    (l : List String) (hlen : l.length + 3 <= 128) (hne : l.length + 3 ≠ 3) :
    e2su22_generic t w (a0 :: "set_permissions_2_3" :: a2 :: l) =
      (perr "wrong number of arguments", []) := by
  have h1 : ¬(l.length + 1 + 1 + 1 < 3) := by omega
  have h2 : ¬(128 < l.length + 1 + 1 + 1) := by omega
  have h3 : l.length + 1 + 1 + 1 ≠ 3 := by omega
  unfold e2su22_generic
  simp [h1, h2, h3]

lemma wrongargs_e_remove23 (t : Tools) (w : World) (a0 a2 : String)
    (l : List String) (hlen : l.length + 3 <= 128) (hne : l.length + 3 ≠ 3) :
    e2su22_generic t w (a0 :: "remove_chroot_2_3" :: a2 :: l) =
      (perr "wrong number of arguments", []) := by
  have h1 : ¬(l.length + 1 + 1 + 1 < 3) := by omega
  have h2 : ¬(128 < l.length + 1 + 1 + 1) := by omega
  have h3 : l.length + 1 + 1 + 1 ≠ 3 := by omega
  unfold e2su22_generic
  simp [h1, h2, h3]

/-- The relation claimed between the two implementations on one argv: the
same accept/reject decision with the same exit code and diagnostic, the same
marker checks, and on acceptance the same tool with `vecRel`-related
argument vectors and the same environment. -/
def C10Rel (w : World) (g e : Outcome × List Event) : Prop :=
  (∀ c m, g.1 = .exited c m ↔ e.1 = .exited c m) ∧
  markerChecks g.2 = markerChecks e.2 ∧
  (∀ tool gargs env, g.1 = .replaced tool gargs env →
    ∃ eargs, e.1 = .replaced tool eargs env ∧ vecRel gargs eargs)

lemma C10Rel.of_eq (w : World) (x y : Outcome × List Event) (hxy : x = y) :
    C10Rel w x y := by
  subst hxy
  exact ⟨fun _ _ => Iff.rfl, rfl, fun tool g env h => ⟨g, h, Or.inl rfl⟩⟩

lemma C10Rel.of_privExec (w : World) (tool : String) (a1 a2 : List String)
    (pre : List Event) (hrel : vecRel a1 a2) :
    C10Rel w (privExec w tool a1 pre) (privExec w tool a2 pre) := by
  refine ⟨fun c m => privExec_exited_iff w tool tool a1 a2 pre pre c m,
    by rw [privExec_markerChecks, privExec_markerChecks], ?_⟩
  intro tl g env h
  obtain ⟨htool, hargs, henv, hp, he⟩ := privExec_replaced_elim w tool a1 pre tl g env h
  refine ⟨a2, ?_, ?_⟩
  · rw [htool, henv, privExec_replaced_intro w tool a2 pre hp he]
  · rw [hargs]
    exact hrel

lemma unknown_cmd_g (t : Tools) (w : World) (a0 a1 a2 : String)
    (l : List String) (hlen : l.length + 3 ≤ 128)
    (c1 : ¬a1 = "chroot_2_2") (c2 : ¬a1 = "extract_tar_2_2") (c3 : ¬a1 = "set_permissions_2_2") (c4 : ¬a1 = "remove_chroot_2_2") (c5 : ¬a1 = "chroot_2_3") (c6 : ¬a1 = "extract_tar_2_3") (c7 : ¬a1 = "set_permissions_2_3") (c8 : ¬a1 = "remove_chroot_2_3") :
    e2su22_global t w (a0 :: a1 :: a2 :: l) = (perr "unknown command", []) := by
  have h1 : ¬(l.length + 1 + 1 + 1 < 3) := by omega
  have h2 : ¬(128 < l.length + 1 + 1 + 1) := by omega
  unfold e2su22_global
  simp [h1, h2, c1, c2, c3, c4, c5, c6, c7, c8]

lemma unknown_cmd_e (t : Tools) (w : World) (a0 a1 a2 : String)
    (l : List String) (hlen : l.length + 3 ≤ 128)
    (c1 : ¬a1 = "chroot_2_2") (c2 : ¬a1 = "extract_tar_2_2") (c3 : ¬a1 = "set_permissions_2_2") (c4 : ¬a1 = "remove_chroot_2_2") (c5 : ¬a1 = "chroot_2_3") (c6 : ¬a1 = "extract_tar_2_3") (c7 : ¬a1 = "set_permissions_2_3") (c8 : ¬a1 = "remove_chroot_2_3") :
    e2su22_generic t w (a0 :: a1 :: a2 :: l) = (perr "unknown command", []) := by
  have h1 : ¬(l.length + 1 + 1 + 1 < 3) := by omega
  have h2 : ¬(128 < l.length + 1 + 1 + 1) := by omega
  unfold e2su22_generic
  simp [h1, h2, c1, c2, c3, c4, c5, c6, c7, c8]

/-- C10: on every argv the two broker implementations
(`src/global/e2-su-2.2.c` and `src/generic/e2-su-2.2.c`) make the same
accept/reject decision with the same exit code and diagnostic, check the
same marker file, and on acceptance exec the same tool on argument vectors
that are identical except for the tar-flag encoding (`vecRel`). -/
theorem c10_impl_equiv (t : Tools) (w : World) (argv : List String) :
    C10Rel w (e2su22_global t w argv) (e2su22_generic t w argv) := by
  rcases argv with _ | ⟨a0, argv⟩
  · exact C10Rel.of_eq w _ _ rfl
  rcases argv with _ | ⟨a1, argv⟩
  · exact C10Rel.of_eq w _ _ rfl
  rcases argv with _ | ⟨a2, l⟩
  · exact C10Rel.of_eq w _ _ rfl
  by_cases hbig : (a0 :: a1 :: a2 :: l).length > 128
  · have hge : e2su22_global t w (a0 :: a1 :: a2 :: l) =
        (perr "too many arguments", []) := by
      unfold e2su22_global
      rw [if_neg (by simp only [List.length_cons]; omega :
          ¬(a0 :: a1 :: a2 :: l).length < 3), if_pos hbig]
    have hee : e2su22_generic t w (a0 :: a1 :: a2 :: l) =
        (perr "too many arguments", []) := by
      unfold e2su22_generic
      rw [if_neg (by simp only [List.length_cons]; omega :
          ¬(a0 :: a1 :: a2 :: l).length < 3), if_pos hbig]
    rw [hge, hee]
    exact C10Rel.of_eq w _ _ rfl
  have hlen : l.length + 3 ≤ 128 := by
    simp only [List.length_cons, gt_iff_lt, not_lt] at hbig
    omega
  have hl125 : l.length ≤ 125 := by omega
  by_cases c1 : a1 = "chroot_2_2"
  · subst c1
    rw [run_chroot22 t w a0 a2 l hl125, run_generic_chroot22 t w a0 a2 l hl125]
    exact C10Rel.of_eq w _ _ rfl
  by_cases c2 : a1 = "extract_tar_2_2"
  · subst c2
    rcases l with _ | ⟨a3, l⟩
    · rw [wrongargs_g_extract22 t w a0 a2 [] (by simp) (by simp),
        wrongargs_e_extract22 t w a0 a2 [] (by simp) (by simp)]
      exact C10Rel.of_eq w _ _ rfl
    rcases l with _ | ⟨a4, l⟩
    · rw [wrongargs_g_extract22 t w a0 a2 [a3] (by simp) (by simp),
        wrongargs_e_extract22 t w a0 a2 [a3] (by simp) (by simp)]
      exact C10Rel.of_eq w _ _ rfl
    rcases l with _ | ⟨a5, l⟩
    swap
    · rw [wrongargs_g_extract22 t w a0 a2 (a3 :: a4 :: a5 :: l) hlen
          (by simp only [List.length_cons]; omega),
        wrongargs_e_extract22 t w a0 a2 (a3 :: a4 :: a5 :: l) hlen
          (by simp only [List.length_cons]; omega)]
      exact C10Rel.of_eq w _ _ rfl
    · rw [run_extract22 t w a0 a2 a3 a4, run_generic_extract22 t w a0 a2 a3 a4]
      by_cases r : w.readable (truncPath (a2 ++ "/emlix-chroot")) = true
      · rw [if_pos r, if_pos r]
        by_cases g1 : a3 = "tar.gz"
        · subst g1
          rw [if_pos rfl, if_pos rfl]
          exact C10Rel.of_privExec w _ _ _ _ (Or.inr (Or.inl ⟨_, _, _, rfl, rfl⟩))
        rw [if_neg g1, if_neg g1]
        by_cases g2 : a3 = "tar.bz2"
        · subst g2
          rw [if_pos rfl, if_pos rfl]
          exact C10Rel.of_privExec w _ _ _ _ (Or.inr (Or.inr ⟨_, _, _, rfl, rfl⟩))
        rw [if_neg g2, if_neg g2]
        by_cases g3 : a3 = "tar"
        · subst g3
          rw [if_pos rfl]
          exact C10Rel.of_eq w _ _ rfl
        · rw [if_neg g3]
          exact C10Rel.of_eq w _ _ rfl
      · rw [if_neg r, if_neg r]
        exact C10Rel.of_eq w _ _ rfl
  by_cases c3 : a1 = "set_permissions_2_2"
  · subst c3
    rcases l with _ | ⟨a3, l⟩
    · rw [run_setperm22 t w a0 a2, run_generic_setperm22 t w a0 a2]
      exact C10Rel.of_eq w _ _ rfl
    · rw [wrongargs_g_setperm22 t w a0 a2 (a3 :: l) hlen
          (by simp only [List.length_cons]; omega),
        wrongargs_e_setperm22 t w a0 a2 (a3 :: l) hlen
          (by simp only [List.length_cons]; omega)]
      exact C10Rel.of_eq w _ _ rfl
  by_cases c4 : a1 = "remove_chroot_2_2"
  · subst c4
    rcases l with _ | ⟨a3, l⟩
    · rw [run_remove22 t w a0 a2, run_generic_remove22 t w a0 a2]
      exact C10Rel.of_eq w _ _ rfl
    · rw [wrongargs_g_remove22 t w a0 a2 (a3 :: l) hlen
          (by simp only [List.length_cons]; omega),
        wrongargs_e_remove22 t w a0 a2 (a3 :: l) hlen
          (by simp only [List.length_cons]; omega)]
      exact C10Rel.of_eq w _ _ rfl
  by_cases c5 : a1 = "chroot_2_3"
  · subst c5
    rw [run_chroot23 t w a0 a2 l hl125, run_generic_chroot23 t w a0 a2 l hl125]
    exact C10Rel.of_eq w _ _ rfl
  by_cases c6 : a1 = "extract_tar_2_3"
  · subst c6
    rcases l with _ | ⟨a3, l⟩
    · rw [wrongargs_g_extract23 t w a0 a2 [] (by simp) (by simp),
        wrongargs_e_extract23 t w a0 a2 [] (by simp) (by simp)]
      exact C10Rel.of_eq w _ _ rfl
    rcases l with _ | ⟨a4, l⟩
    · rw [wrongargs_g_extract23 t w a0 a2 [a3] (by simp) (by simp),
        wrongargs_e_extract23 t w a0 a2 [a3] (by simp) (by simp)]
      exact C10Rel.of_eq w _ _ rfl
    rcases l with _ | ⟨a5, l⟩
    swap
    · rw [wrongargs_g_extract23 t w a0 a2 (a3 :: a4 :: a5 :: l) hlen
          (by simp only [List.length_cons]; omega),
        wrongargs_e_extract23 t w a0 a2 (a3 :: a4 :: a5 :: l) hlen
          (by simp only [List.length_cons]; omega)]
      exact C10Rel.of_eq w _ _ rfl
    · rw [run_extract23 t w a0 a2 a3 a4, run_generic_extract23 t w a0 a2 a3 a4]
      by_cases r : w.readable (truncPath (a2 ++ "/e2factory-chroot")) = true
      · rw [if_pos r, if_pos r]
        by_cases g1 : a3 = "tar.gz"
        · subst g1
          rw [if_pos rfl, if_pos rfl]
          exact C10Rel.of_privExec w _ _ _ _ (Or.inr (Or.inl ⟨_, _, _, rfl, rfl⟩))
        rw [if_neg g1, if_neg g1]
        by_cases g2 : a3 = "tar.bz2"
        · subst g2
          rw [if_pos rfl, if_pos rfl]
          exact C10Rel.of_privExec w _ _ _ _ (Or.inr (Or.inr ⟨_, _, _, rfl, rfl⟩))
        rw [if_neg g2, if_neg g2]
        by_cases g3 : a3 = "tar"
        · subst g3
          rw [if_pos rfl]
          exact C10Rel.of_eq w _ _ rfl
        · rw [if_neg g3]
          exact C10Rel.of_eq w _ _ rfl
      · rw [if_neg r, if_neg r]
        exact C10Rel.of_eq w _ _ rfl
  by_cases c7 : a1 = "set_permissions_2_3"
  · subst c7
    rcases l with _ | ⟨a3, l⟩
    · rw [run_setperm23 t w a0 a2, run_generic_setperm23 t w a0 a2]
      exact C10Rel.of_eq w _ _ rfl
    · rw [wrongargs_g_setperm23 t w a0 a2 (a3 :: l) hlen
          (by simp only [List.length_cons]; omega),
        wrongargs_e_setperm23 t w a0 a2 (a3 :: l) hlen
          (by simp only [List.length_cons]; omega)]
      exact C10Rel.of_eq w _ _ rfl
  by_cases c8 : a1 = "remove_chroot_2_3"
  · subst c8
    rcases l with _ | ⟨a3, l⟩
    · rw [run_remove23 t w a0 a2, run_generic_remove23 t w a0 a2]
      exact C10Rel.of_eq w _ _ rfl
    · rw [wrongargs_g_remove23 t w a0 a2 (a3 :: l) hlen
          (by simp only [List.length_cons]; omega),
        wrongargs_e_remove23 t w a0 a2 (a3 :: l) hlen
          (by simp only [List.length_cons]; omega)]
      exact C10Rel.of_eq w _ _ rfl
  rw [unknown_cmd_g t w a0 a1 a2 l hlen c1 c2 c3 c4 c5 c6 c7 c8,
    unknown_cmd_e t w a0 a1 a2 l hlen c1 c2 c3 c4 c5 c6 c7 c8]
  exact C10Rel.of_eq w _ _ rfl

/-- Witness for C10 at a concrete accepted gzip extraction. -/
theorem c10_impl_equiv_witness :
    ∃ eargs,
      (e2su22_generic cTools cWorld
          ["e2-su-2.2", "extract_tar_2_2", "/s", "tar.gz", "f.tgz"]).1 =
        .replaced cTools.tar_tool eargs [] ∧
      vecRel [basename cTools.tar_tool, "-C", "/s", "--gzip", "-xf", "f.tgz"] eargs :=
  (c10_impl_equiv cTools cWorld
      ["e2-su-2.2", "extract_tar_2_2", "/s", "tar.gz", "f.tgz"]).2.2
    cTools.tar_tool [basename cTools.tar_tool, "-C", "/s", "--gzip", "-xf", "f.tgz"] []
    (by decide)

end E2
